import Mathlib

/-!
Verification of the emiu2 Miuchiz handheld emulator core against its
specification.  The Rust sources under `src/src/miuchiz` are shallowly
embedded: machine bytes and words are `Nat` with explicit masking exactly
where the Rust integer types force truncation, stateful code is rendered as
explicit state passing, and code paths that panic in Rust (`todo!()`)
become `Option`/`Bool` markers so that totality claims can be settled.
-/

namespace Emiu2

/-! ## `st2205u/reg.rs` — masked byte and word registers -/

/-- `U8Register` from `reg.rs`: a byte register together with the mask of
bits which physically exist. -/
structure U8Register where
  val : Nat
  mask : Nat
  deriving Repr, DecidableEq

namespace U8Register

/-- `U8Register::new`: store `value` masked by `mask`. -/
def new (value mask : Nat) : U8Register :=
  { val := value &&& mask, mask := mask }

/-- `U8Register::set`: writes apply the existing-bit mask. -/
def set (r : U8Register) (value : Nat) : U8Register :=
  { r with val := value &&& r.mask }

/-- `U8Register::get`. -/
def get (r : U8Register) : Nat := r.val

end U8Register

/-- `U16Register` from `reg.rs`: two masked byte registers. -/
structure U16Register where
  l : U8Register
  h : U8Register
  deriving Repr, DecidableEq

namespace U16Register

/-- `U16Register::new value mask`. -/
def new (value mask : Nat) : U16Register :=
  { l := U8Register.new (value &&& 0xFF) (mask &&& 0xFF)
    h := U8Register.new ((value &&& 0xFF00) >>> 8) ((mask &&& 0xFF00) >>> 8) }

/-- `U16Register::u16`. -/
def u16 (r : U16Register) : Nat := r.l.get ||| r.h.get <<< 8

/-- `U16Register::set_l`. -/
def setL (r : U16Register) (value : Nat) : U16Register := { r with l := r.l.set value }

/-- `U16Register::set_h`. -/
def setH (r : U16Register) (value : Nat) : U16Register := { r with h := r.h.set value }

/-- `U16Register::set_u16`. -/
def setU16 (r : U16Register) (value : Nat) : U16Register :=
  { r with
    l := r.l.set (value &&& 0x00FF)
    h := r.h.set ((value &&& 0xFF00) >>> 8) }

/-- `U16Register::l_mask`. -/
def lMask (r : U16Register) : Nat := r.l.mask

/-- `U16Register::h_mask`. -/
def hMask (r : U16Register) : Nat := r.h.mask

/-- `U16Register::mask_u16`. -/
def maskU16 (r : U16Register) : Nat := r.lMask ||| r.hMask <<< 8

end U16Register

/-! ## `st2205u/bank.rs` — the BRR/PRR/IRR/DRR bank registers -/

/-- `bank::State` from `bank.rs`. -/
structure BankState where
  brr : U16Register
  prr : U16Register
  irr : U16Register
  drr : U16Register
  deriving Repr, DecidableEq

namespace BankState

/-- `bank::State::new` with the masks from the source: BRR `0x9FFF`
(power-on value `0x8000`), PRR and IRR `0x8FFF`, DRR `0x87FF`. -/
def new : BankState :=
  { brr := U16Register.new 0x8000 0x9FFF
    prr := U16Register.new 0x0000 0x8FFF
    irr := U16Register.new 0x0000 0x8FFF
    drr := U16Register.new 0x0000 0x87FF }

end BankState

/-- `bank::read_brrl`: bits which do not exist read as 1.  The Rust `!mask`
is a `u8` complement, rendered as `0xFF ^^^ mask`. -/
def read_brrl (b : BankState) : Nat := b.brr.l.get ||| (0xFF ^^^ b.brr.lMask)

/-- `bank::read_brrh`. -/
def read_brrh (b : BankState) : Nat := b.brr.h.get ||| (0xFF ^^^ b.brr.hMask)

/-- `bank::read_prrl`. -/
def read_prrl (b : BankState) : Nat := b.prr.l.get ||| (0xFF ^^^ b.prr.lMask)

/-- `bank::read_prrh`. -/
def read_prrh (b : BankState) : Nat := b.prr.h.get ||| (0xFF ^^^ b.prr.hMask)

/-- `bank::read_irrl`. -/
def read_irrl (b : BankState) : Nat := b.irr.l.get ||| (0xFF ^^^ b.irr.lMask)

/-- `bank::read_irrh`. -/
def read_irrh (b : BankState) : Nat := b.irr.h.get ||| (0xFF ^^^ b.irr.hMask)

/-- `bank::read_drrl`. -/
def read_drrl (b : BankState) : Nat := b.drr.l.get ||| (0xFF ^^^ b.drr.lMask)

/-- `bank::read_drrh`. -/
def read_drrh (b : BankState) : Nat := b.drr.h.get ||| (0xFF ^^^ b.drr.hMask)

/-- `bank::write_brrl`. -/
def write_brrl (b : BankState) (value : Nat) : BankState := { b with brr := b.brr.setL value }

/-- `bank::write_brrh`. -/
def write_brrh (b : BankState) (value : Nat) : BankState := { b with brr := b.brr.setH value }

/-- `bank::write_prrl`. -/
def write_prrl (b : BankState) (value : Nat) : BankState := { b with prr := b.prr.setL value }

/-- `bank::write_prrh`. -/
def write_prrh (b : BankState) (value : Nat) : BankState := { b with prr := b.prr.setH value }

/-- `bank::write_irrl`. -/
def write_irrl (b : BankState) (value : Nat) : BankState := { b with irr := b.irr.setL value }

/-- `bank::write_irrh`. -/
def write_irrh (b : BankState) (value : Nat) : BankState := { b with irr := b.irr.setH value }

/-- `bank::write_drrl`. -/
def write_drrl (b : BankState) (value : Nat) : BankState := { b with drr := b.drr.setL value }

/-- `bank::write_drrh`. -/
def write_drrh (b : BankState) (value : Nat) : BankState := { b with drr := b.drr.setH value }

/-- `bank::brr`: the value used for address translation, built from the
read-as-1 byte reads. -/
def bank_brr (b : BankState) : Nat := read_brrl b ||| read_brrh b <<< 8

/-- `bank::prr`. -/
def bank_prr (b : BankState) : Nat := read_prrl b ||| read_prrh b <<< 8

/-- `bank::irr`. -/
def bank_irr (b : BankState) : Nat := read_irrl b ||| read_irrh b <<< 8

/-- `bank::drr`. -/
def bank_drr (b : BankState) : Nat := read_drrl b ||| read_drrh b <<< 8

/-- `bank::set_prr`. -/
def set_prr (b : BankState) (value : Nat) : BankState := { b with prr := b.prr.setU16 value }

/-- `bank::set_irr`. -/
def set_irr (b : BankState) (value : Nat) : BankState := { b with irr := b.irr.setU16 value }

/-- `bank::set_drr`. -/
def set_drr (b : BankState) (value : Nat) : BankState := { b with drr := b.drr.setU16 value }

/-- `bank::set_brr`. -/
def set_brr (b : BankState) (value : Nat) : BankState := { b with brr := b.brr.setU16 value }

/-! ## `sst39vf1681/flash.rs` — the external NOR flash command machine -/

/-- `CHIP_CAPACITY`. -/
def CHIP_CAPACITY : Nat := 0x200000

/-- `SECTOR_SIZE`. -/
def SECTOR_SIZE : Nat := 0x1000

/-- `BLOCK_SIZE`. -/
def BLOCK_SIZE : Nat := 0x10000

/-- `CommandWrite` from `flash.rs`. -/
structure CommandWrite where
  address : Nat
  value : Nat
  deriving Repr, DecidableEq

/-- The `BYTE_PROGRAM` unlock sequence. -/
def BYTE_PROGRAM : List CommandWrite :=
  [⟨0xAAA, 0xAA⟩, ⟨0x555, 0x55⟩, ⟨0xAAA, 0xA0⟩]

/-- The `ERASE` unlock sequence. -/
def ERASE : List CommandWrite :=
  [⟨0xAAA, 0xAA⟩, ⟨0x555, 0x55⟩, ⟨0xAAA, 0x80⟩, ⟨0xAAA, 0xAA⟩, ⟨0x555, 0x55⟩]

/-- `ReadMode` from `flash.rs`. -/
inductive FlashReadMode where
  | status (address : Nat)
  | data
  deriving Repr, DecidableEq

/-- `RingBuf<6, CommandWrite>` from `flash.rs`: `data` always has length 6. -/
structure RingBuf where
  data : List (Option CommandWrite)
  index : Nat
  deriving Repr, DecidableEq

namespace RingBuf

/-- `RingBuf::new`. -/
def new : RingBuf := { data := List.replicate 6 none, index := 0 }

/-- `RingBuf::push`. -/
def push (r : RingBuf) (v : CommandWrite) : RingBuf :=
  { data := r.data.set r.index (some v), index := (r.index + 1) % 6 }

/-- `RingBuf::clear`. -/
def clear (_ : RingBuf) : RingBuf := new

/-- `RingBuf::get_from_back`. -/
def getFromBack (r : RingBuf) (n : Nat) : Option CommandWrite :=
  let n := n % 6
  let prevBufIndex := (r.index + 6 - 1) % 6
  let i := (6 - n + prevBufIndex) % 6
  r.data.getD i none

/-- `RingBuf::ends_with`: walks `other` from its back and compares against
the most recent pushes. -/
def endsWith (r : RingBuf) (other : List CommandWrite) : Bool :=
  if other.length ≥ 6 then false
  else other.reverse.enum.all fun p =>
    match r.getFromBack p.fst with
    | none => false
    | some bufElement => p.snd == bufElement

end RingBuf

/-- `Flash` from `flash.rs`; the byte array is a function read modulo
`CHIP_CAPACITY` exactly where the source indexes `% self.data.len()`. -/
structure Flash where
  data : Nat → Nat
  readMode : FlashReadMode
  commandWrites : RingBuf

namespace Flash

/-- `Flash::sector_erase`: the loop writes `0xFF` at
`(sector * SECTOR_SIZE + i) % CHIP_CAPACITY` for each `i < SECTOR_SIZE`. -/
def sectorErase (f : Flash) (sector : Nat) : Flash :=
  { f with data := fun addr =>
      if ∃ i < SECTOR_SIZE, addr = (sector * SECTOR_SIZE + i) % CHIP_CAPACITY then 0xFF
      else f.data addr }

/-- `Flash::block_erase`. -/
def blockErase (f : Flash) (block : Nat) : Flash :=
  { f with data := fun addr =>
      if ∃ i < BLOCK_SIZE, addr = (block * BLOCK_SIZE + i) % CHIP_CAPACITY then 0xFF
      else f.data addr }

/-- `Flash::chip_erase`: `data.fill(0xFF)`. -/
def chipErase (f : Flash) : Flash := { f with data := fun _ => 0xFF }

/-- `Flash::byte_program`. -/
def byteProgram (f : Flash) (address value : Nat) : Flash :=
  { f with data := fun addr => if addr = address % CHIP_CAPACITY then value else f.data addr }

/-- `Flash::status_register`. -/
def statusRegister (_ : Flash) : Nat := 0xC0

/-- `Flash::read_u8`.  The Rust receiver is `&mut self` but the body never
mutates, so the embedding returns only the byte. -/
def read_u8 (f : Flash) (address : Nat) : Nat :=
  match f.readMode with
  | .status statusAddress =>
      if address = statusAddress then f.statusRegister
      else f.data (address % CHIP_CAPACITY)
  | .data => f.data (address % CHIP_CAPACITY)

/-- `Flash::write_u8`.  An invalid final erase command is only logged but
still counts as handled, exactly as in the source. -/
def write_u8 (f : Flash) (address value : Nat) : Flash :=
  if f.commandWrites.endsWith ERASE then
    let f :=
      if value = 0x50 then f.sectorErase (address / SECTOR_SIZE)
      else if value = 0x30 then f.blockErase (address / BLOCK_SIZE)
      else if address = 0xAAA ∧ value = 0x10 then f.chipErase
      else f
    { f with readMode := .status address, commandWrites := f.commandWrites.clear }
  else if f.commandWrites.endsWith BYTE_PROGRAM then
    let f := f.byteProgram address value
    { f with readMode := .status address, commandWrites := f.commandWrites.clear }
  else
    { f with commandWrites := f.commandWrites.push ⟨address, value⟩ }

end Flash

/-! ## `st2205u/base_timer.rs` — the 8192 Hz base timer -/

/-- `TIMER_FREQUENCY`. -/
def TIMER_FREQUENCY : Nat := 8192

/-- `base_timer::State`. -/
structure BaseTimerState where
  inputClockFrequency : Nat
  elapsedTicks : Nat
  counter : Nat
  nextCounterTick : Nat
  btc : U8Register
  bten : U8Register
  btreq : U8Register
  deriving Repr, DecidableEq

namespace BaseTimerState

/-- `State::update_next_counter_tick`: integer (floor) division, as in the
source. -/
def updateNextCounterTick (s : BaseTimerState) : BaseTimerState :=
  { s with nextCounterTick := (s.counter + 1) * s.inputClockFrequency / TIMER_FREQUENCY }

/-- `base_timer::State::new`. -/
def new (clockFrequency : Nat) : BaseTimerState :=
  updateNextCounterTick
    { inputClockFrequency := clockFrequency
      elapsedTicks := 0
      counter := 0
      nextCounterTick := 0
      btc := U8Register.new 0x00 0xFF
      bten := U8Register.new 0x00 0xFF
      btreq := U8Register.new 0x00 0xFF }

/-- `State::set_elapsed_ticks`. -/
def setElapsedTicks (s : BaseTimerState) (ticks : Nat) : BaseTimerState :=
  { s with elapsedTicks := ticks }

/-- `State::increment_counter`. -/
def incrementCounter (s : BaseTimerState) : BaseTimerState :=
  updateNextCounterTick { s with counter := s.counter + 1 }

/-- The private method `State::btc(&self)` (the counter modulo 8192), named
apart from the `btc` register field. -/
def btcValue (s : BaseTimerState) : Nat := s.counter % 8192

/-- `State::update`: returns the updated state and whether an interrupt
should be raised. -/
def update (s : BaseTimerState) : BaseTimerState × Bool :=
  if s.elapsedTicks < s.nextCounterTick then (s, false)
  else
    let s := s.incrementCounter
    let clock := s.btcValue
    let btreq0 := clock % (TIMER_FREQUENCY / 2) = 0
    let btreq1 := clock % (TIMER_FREQUENCY / 32) = 0
    let btreq2 := clock % (TIMER_FREQUENCY / 64) = 0
    let btreq3 := clock % (TIMER_FREQUENCY / 128) = 0
    let btreq4 := clock % (TIMER_FREQUENCY / 256) = 0
    let btreq5 := clock % (TIMER_FREQUENCY / 512) = 0
    let btreq6 := clock % (TIMER_FREQUENCY / 2048) = 0
    let btreq7 :=
      if s.btc.get = 0 then clock % (TIMER_FREQUENCY / 8192) = 0
      else clock % (TIMER_FREQUENCY / s.btc.get) = 0
    let btreqNew :=
      ((if btreq0 then 1 else 0) <<< 0) |||
      ((if btreq1 then 1 else 0) <<< 1) |||
      ((if btreq2 then 1 else 0) <<< 2) |||
      ((if btreq3 then 1 else 0) <<< 3) |||
      ((if btreq4 then 1 else 0) <<< 4) |||
      ((if btreq5 then 1 else 0) <<< 5) |||
      ((if btreq6 then 1 else 0) <<< 6) |||
      ((if btreq7 then 1 else 0) <<< 7)
    let btreqNew := btreqNew &&& s.bten.get
    let assertNewInterrupt := btreqNew ≠ 0
    let btreqNew := btreqNew ||| s.btreq.get
    ({ s with btreq := s.btreq.set btreqNew }, decide assertNewInterrupt)

end BaseTimerState

/-- `base_timer::read_bten`. -/
def read_bten (s : BaseTimerState) : Nat := s.bten.get

/-- `base_timer::write_bten`. -/
def write_bten (s : BaseTimerState) (value : Nat) : BaseTimerState :=
  { s with bten := s.bten.set value }

/-- `base_timer::read_btreq`. -/
def read_btreq (s : BaseTimerState) : Nat := s.btreq.get

/-- `base_timer::write_btreq`: writing 1 bits clears them; the Rust `!value`
is a `u8` complement of a `u8` argument. -/
def write_btreq (s : BaseTimerState) (value : Nat) : BaseTimerState :=
  let mask := 0xFF ^^^ (value &&& 0xFF)
  { s with btreq := s.btreq.set (s.btreq.get &&& mask) }

/-- `base_timer::read_btc`. -/
def read_btc (s : BaseTimerState) : Nat := s.btc.get

/-- `base_timer::write_btc`. -/
def write_btc (s : BaseTimerState) (value : Nat) : BaseTimerState :=
  { s with btc := s.btc.set value }

/-- The driver assumed by claim C4: the base timer of a 16,000,000 Hz
oscillator, with `set_elapsed_ticks` followed by `update` invoked once per
elapsed oscillator cycle, for `m` cycles. -/
def runBaseTimer : Nat → BaseTimerState
  | 0 => BaseTimerState.new 16000000
  | t + 1 => (((runBaseTimer t).setElapsedTicks (t + 1)).update).fst

/-! ## `st7626/lcd.rs` — the LCD controller -/

/-- `LCD_WIDTH`. -/
def LCD_WIDTH : Nat := 98

/-- `LCD_HEIGHT`. -/
def LCD_HEIGHT : Nat := 67

/-- `DDRAM_PAGE`. -/
def DDRAM_PAGE : Nat := 68

/-- `DDRAM_COLUMN`. -/
def DDRAM_COLUMN : Nat := 98

/-- `DDRAM_WIDTH`. -/
def DDRAM_WIDTH : Nat := 2

/-- `DDRAM_COUNT * DDRAM_WIDTH`, the length of the `ddram` array. -/
def DDRAM_BYTES : Nat := DDRAM_COLUMN * DDRAM_PAGE * DDRAM_WIDTH

/-- `Voltage` from `lcd.rs`: a 9-bit register. -/
structure Voltage where
  value : Nat
  deriving Repr, DecidableEq

namespace Voltage

/-- `Voltage::set`. -/
def set (_ : Voltage) (value : Nat) : Voltage := { value := value &&& 0x1FF }

/-- `Voltage::new`. -/
def new (value : Nat) : Voltage := Voltage.set { value := 0 } value

/-- `Voltage::get`. -/
def get (v : Voltage) : Nat := v.value

/-- `Voltage::max`. -/
def maxValue : Nat := (1 <<< 9) - 1

/-- `Voltage::set_p1`: sets Vop `[5:0]`.  The Rust `!mask` is a `u16`
complement. -/
def setP1 (v : Voltage) (low : Nat) : Voltage :=
  let val := v.get
  let mask := 0x3F
  let val := val &&& (0xFFFF ^^^ mask)
  let val := val ||| (low &&& mask)
  v.set val

/-- `Voltage::set_p2`, documented in the source as setting Vop `[8:6]`.
Transcribed exactly: the source masks `high` with `val_mask = 0b111000000`
(not with `high_mask = 0b111`) before shifting left by 6. -/
def setP2 (v : Voltage) (high : Nat) : Voltage :=
  let val := v.get
  let valMask := 0x1C0
  let val := val &&& (0xFFFF ^^^ valMask)
  let val := val ||| (high &&& valMask) <<< 6
  v.set val

end Voltage

/-- `Command` from `lcd.rs`. -/
inductive LcdCommand where
  | extOn
  | extOff
  | displayOn
  | displayOff
  | normalDisplay
  | inverseDisplay
  | comScanDirection
  | displayControl
  | sleepInOutPreparation
  | sleepIn
  | sleepOut
  | pageAddressSet
  | columnAddressSet
  | dataScanDirection
  | writingToMemory
  | readingFromMemory
  | partialDisplayIn
  | partialDisplayOut
  | readModifyWriteIn
  | readModifyWriteOut
  | areaScrollSet
  | scrollStartSet
  | internalOscOn
  | internalOscOff
  | powerControl
  | ecControl
  | ecIncrease1
  | ecDecrease1
  | readRegister1
  | readRegister2
  | noOperation
  | eepromFunctionStart
  | frame1PwmSet
  | frame2PwmSet
  | frame3PwmSet
  | frame4PwmSet
  | analogSet
  | controlEeprom
  | cancelEeprom
  | writeToEeprom
  | readFromEeprom
  | displayPerformanceAdjustment
  | internalInitializePreparation
  deriving Repr, DecidableEq

namespace LcdCommand

/-- `Command::from_val`: the two overlapping command tables selected by the
`EXT` bit. -/
def fromVal (ext : Bool) (val : Nat) : Option LcdCommand :=
  if val = 0x30 then some extOff
  else if val = 0x31 then some extOn
  else if ext = false then
    match val with
    | 0xAF => some displayOn
    | 0xAE => some displayOff
    | 0xA6 => some normalDisplay
    | 0xA7 => some inverseDisplay
    | 0xBB => some comScanDirection
    | 0xCA => some displayControl
    | 0x04 => some sleepInOutPreparation
    | 0x95 => some sleepIn
    | 0x94 => some sleepOut
    | 0x75 => some pageAddressSet
    | 0x15 => some columnAddressSet
    | 0xBC => some dataScanDirection
    | 0x5C => some writingToMemory
    | 0x5D => some readingFromMemory
    | 0xA8 => some partialDisplayIn
    | 0xA9 => some partialDisplayOut
    | 0xE0 => some readModifyWriteIn
    | 0xEE => some readModifyWriteOut
    | 0xAA => some areaScrollSet
    | 0xAB => some scrollStartSet
    | 0xD1 => some internalOscOn
    | 0xD2 => some internalOscOff
    | 0x20 => some powerControl
    | 0x81 => some ecControl
    | 0xD6 => some ecIncrease1
    | 0xD7 => some ecDecrease1
    | 0x7C => some readRegister1
    | 0x7D => some readRegister2
    | 0x25 => some noOperation
    | 0x07 => some eepromFunctionStart
    | _ => none
  else
    match val with
    | 0x20 => some frame1PwmSet
    | 0x21 => some frame2PwmSet
    | 0x22 => some frame3PwmSet
    | 0x23 => some frame4PwmSet
    | 0x32 => some analogSet
    | 0xCD => some controlEeprom
    | 0xCC => some cancelEeprom
    | 0xFC => some writeToEeprom
    | 0xFD => some readFromEeprom
    | 0xFA => some displayPerformanceAdjustment
    | 0xF4 => some internalInitializePreparation
    | _ => none

end LcdCommand

/-- `Lcd` from `lcd.rs`, without the host `screen` reference: emitting a
frame (`update_display`, which takes `&self`) is reported as a boolean
event instead of mutating state. -/
structure Lcd where
  ext : Bool
  activeCommand : Option LcdCommand
  byteSinceCommand : Nat
  ddram : Nat → Nat
  ddramPtr : Nat
  startPage : Nat
  endPage : Nat
  startColumn : Nat
  endColumn : Nat
  displayOn : Bool
  voltage : Voltage

namespace Lcd

/-- `Lcd::new`. -/
def new : Lcd :=
  { ext := false
    activeCommand := none
    byteSinceCommand := 0
    ddram := fun _ => 0
    ddramPtr := 0
    startPage := 0
    endPage := 0
    startColumn := 0
    endColumn := 0
    displayOn := false
    voltage := Voltage.new Voltage.maxValue }

/-- `Lcd::ddram_page`. -/
def ddramPage (lcd : Lcd) : Nat := lcd.ddramPtr / DDRAM_WIDTH / DDRAM_COLUMN

/-- `Lcd::ddram_column`. -/
def ddramColumn (lcd : Lcd) : Nat := lcd.ddramPtr / DDRAM_WIDTH % DDRAM_COLUMN

/-- `Lcd::column_and_page_ptr`. -/
def columnAndPagePtr (column page : Nat) : Nat := (page * DDRAM_COLUMN + column) * DDRAM_WIDTH

/-- `Lcd::ddram_set_column_and_page`. -/
def ddramSetColumnAndPage (lcd : Lcd) (column page : Nat) : Lcd :=
  { lcd with ddramPtr := columnAndPagePtr column page }

/-- `Lcd::handle_command`. -/
def handleCommand (lcd : Lcd) (command : LcdCommand) : Lcd :=
  let lcd :=
    match command with
    | .extOn => { lcd with ext := true }
    | .extOff => { lcd with ext := false }
    | .writingToMemory => lcd
    | .pageAddressSet => lcd
    | .columnAddressSet => lcd
    | .displayOff => { lcd with displayOn := false }
    | .displayOn => { lcd with displayOn := true }
    | .ecControl => lcd
    | _ => lcd
  { lcd with activeCommand := some command, byteSinceCommand := 0 }

/-- `Lcd::handle_data`.  The returned boolean records that `update_display`
was invoked (a frame was emitted to the host screen); `none` marks the
Rust panic when `WritingToMemory` indexes `ddram` out of bounds. -/
def handleData (lcd : Lcd) (value : Nat) : Option (Lcd × Bool) :=
  match lcd.activeCommand with
  | none => some (lcd, false)
  | some command =>
    let result : Option (Lcd × Bool) :=
      match command with
      | .pageAddressSet =>
        if lcd.byteSinceCommand = 0 then some ({ lcd with startPage := value }, false)
        else if lcd.byteSinceCommand = 1 then
          let lcd := { lcd with endPage := value }
          some (lcd.ddramSetColumnAndPage lcd.ddramColumn lcd.startPage, false)
        else some (lcd, false)
      | .columnAddressSet =>
        if lcd.byteSinceCommand = 0 then some ({ lcd with startColumn := value }, false)
        else if lcd.byteSinceCommand = 1 then
          let lcd := { lcd with endColumn := value }
          some (lcd.ddramSetColumnAndPage lcd.startColumn lcd.ddramPage, false)
        else some (lcd, false)
      | .writingToMemory =>
        if lcd.ddramPtr < DDRAM_BYTES then
          let lcd :=
            { lcd with
              ddram := fun a => if a = lcd.ddramPtr then value else lcd.ddram a
              ddramPtr := lcd.ddramPtr + 1 }
          let lcd :=
            if lcd.ddramColumn > lcd.endColumn then
              lcd.ddramSetColumnAndPage lcd.startColumn (lcd.ddramPage + 1)
            else lcd
          if lcd.ddramPage > lcd.endPage then
            some (lcd.ddramSetColumnAndPage lcd.ddramColumn lcd.startPage, true)
          else some (lcd, false)
        else none
      | .ecControl =>
        if lcd.byteSinceCommand = 0 then
          some ({ lcd with voltage := lcd.voltage.setP1 value }, false)
        else if lcd.byteSinceCommand = 1 then
          some ({ lcd with voltage := lcd.voltage.setP2 value }, true)
        else some (lcd, false)
      | _ => some (lcd, false)
    result.map fun r => ({ r.fst with byteSinceCommand := r.fst.byteSinceCommand + 1 }, r.snd)

/-- `Lcd::read_u8`: unimplemented reads return `0xFF` (logged). -/
def read_u8 (_ : Lcd) (_ : Nat) : Nat := 0xFF

/-- `Lcd::write_u8`: register select is `address mod 2`. -/
def write_u8 (lcd : Lcd) (address value : Nat) : Option (Lcd × Bool) :=
  if address % 2 = 0 then
    match LcdCommand.fromVal lcd.ext value with
    | none => some (lcd, false)
    | some command => some (lcd.handleCommand command, false)
  else
    lcd.handleData value

end Lcd

/-! ## `st2205u/psg.rs` — the programmable sound generator data ports -/

/-- `PsgChannel`. -/
inductive PsgChannel where
  | channel0
  | channel1
  | channel2
  | channel3
  deriving Repr, DecidableEq

/-- `PsgModeState`: PCM FIFOs hold bytes, ADPCM FIFOs hold 9-bit signed
samples. -/
inductive PsgModeState where
  | pcmDac (fifo : List Nat) (currentSample : Nat)
  | tone
  | adpcmDac (fifo : List Int) (currentSample : Int)
  deriving Repr, DecidableEq

namespace PsgModeState

/-- `PsgModeState::default_pcmdac`. -/
def defaultPcmdac : PsgModeState := .pcmDac [] 128

/-- `PsgModeState::default_adpcmdac`. -/
def defaultAdpcmdac : PsgModeState := .adpcmDac [] 0

end PsgModeState

/-- The `psg_states` part of `psg::State` (the four per-channel states). -/
structure PsgState where
  psgStates : PsgChannel → PsgModeState

namespace PsgState

/-- The per-channel initial state of `psg::State::new`. -/
def new : PsgState := { psgStates := fun _ => PsgModeState.defaultPcmdac }

/-- `State::write_psgm`: reinitializes each channel from its 2-bit mode. -/
def writePsgm (_ : PsgState) (value : Nat) : PsgState :=
  { psgStates := fun c =>
      let i :=
        match c with
        | .channel0 => 0
        | .channel1 => 1
        | .channel2 => 2
        | .channel3 => 3
      match (value >>> (i * 2)) &&& 0b11 with
      | 0b00 => PsgModeState.defaultPcmdac
      | 0b01 => PsgModeState.tone
      | 0b11 => PsgModeState.defaultAdpcmdac
      | _ => PsgModeState.defaultPcmdac }

/-- The `i16` `clamp(-255, 256)` used by the ADPCM data ports. -/
def clampSample (x : Int) : Int :=
  if x < -255 then -255 else if x > 256 then 256 else x

/-- `State::write_psgxa`: `none` marks the `todo!()` panic taken when the
selected channel is in tone mode. -/
def writePsgxa (s : PsgState) (channel : PsgChannel) (value : Nat) : Option PsgState :=
  match s.psgStates channel with
  | .adpcmDac fifo currentSample =>
      let rawValue := clampSample ((fifo.getLast?.getD 0) + (value : Int))
      some { psgStates := fun c =>
        if c = channel then .adpcmDac (fifo ++ [rawValue]) currentSample else s.psgStates c }
  | .pcmDac fifo currentSample =>
      some { psgStates := fun c =>
        if c = channel then .pcmDac (fifo ++ [value]) currentSample else s.psgStates c }
  | .tone => none

/-- `State::write_psgxb`: a non-ADPCM channel ignores the write (per the
datasheet comment in the source). -/
def writePsgxb (s : PsgState) (channel : PsgChannel) (value : Nat) : Option PsgState :=
  match s.psgStates channel with
  | .adpcmDac fifo currentSample =>
      let rawValue := clampSample ((fifo.getLast?.getD 0) - (value : Int))
      some { psgStates := fun c =>
        if c = channel then .adpcmDac (fifo ++ [rawValue]) currentSample else s.psgStates c }
  | _ => some s

end PsgState

/-! ## `wdc_65c02/opcode.rs` and the `Core::execute_instruction` dispatch -/

/-- `Opcode` from `opcode.rs`. -/
inductive Opcode where
  | adc
  | and
  | asl
  | bbr0
  | bbr1
  | bbr2
  | bbr3
  | bbr4
  | bbr5
  | bbr6
  | bbr7
  | bbs0
  | bbs1
  | bbs2
  | bbs3
  | bbs4
  | bbs5
  | bbs6
  | bbs7
  | bcc
  | bcs
  | beq
  | bit
  | bmi
  | bne
  | bpl
  | bra
  | brk
  | bvc
  | bvs
  | clc
  | cld
  | cli
  | clv
  | cmp
  | cpx
  | cpy
  | dec
  | dex
  | dey
  | eor
  | inc
  | inx
  | iny
  | jmp
  | jsr
  | lda
  | ldx
  | ldy
  | lsr
  | nop
  | ora
  | pha
  | php
  | phx
  | phy
  | pla
  | plp
  | plx
  | ply
  | rmb0
  | rmb1
  | rmb2
  | rmb3
  | rmb4
  | rmb5
  | rmb6
  | rmb7
  | rol
  | ror
  | rti
  | rts
  | sbc
  | sec
  | sed
  | sei
  | smb0
  | smb1
  | smb2
  | smb3
  | smb4
  | smb5
  | smb6
  | smb7
  | sta
  | stp
  | stx
  | sty
  | stz
  | tax
  | tay
  | trb
  | tsb
  | tsx
  | txa
  | txs
  | tya
  | wai
  deriving Repr, DecidableEq

/-- The arms of `Core::execute_instruction`'s opcode dispatch in `core.rs`
that are `todo!()` (a Rust panic aborting the step), transcribed arm by
arm: `Bit`, `Brk`, `Bvc`, `Bvs`, `Stp`, `Trb` and `Tsb` panic; every other
opcode dispatches to its `instr::...` handler. -/
def executeInstructionPanics : Opcode → Bool
  | .adc => false
  | .and => false
  | .asl => false
  | .bbr0 => false
  | .bbr1 => false
  | .bbr2 => false
  | .bbr3 => false
  | .bbr4 => false
  | .bbr5 => false
  | .bbr6 => false
  | .bbr7 => false
  | .bbs0 => false
  | .bbs1 => false
  | .bbs2 => false
  | .bbs3 => false
  | .bbs4 => false
  | .bbs5 => false
  | .bbs6 => false
  | .bbs7 => false
  | .bcc => false
  | .bcs => false
  | .beq => false
  | .bit => true
  | .bmi => false
  | .bne => false
  | .bpl => false
  | .bra => false
  | .brk => true
  | .bvc => true
  | .bvs => true
  | .clc => false
  | .cld => false
  | .cli => false
  | .clv => false
  | .cmp => false
  | .cpx => false
  | .cpy => false
  | .dec => false
  | .dex => false
  | .dey => false
  | .eor => false
  | .inc => false
  | .inx => false
  | .iny => false
  | .jmp => false
  | .jsr => false
  | .lda => false
  | .ldx => false
  | .ldy => false
  | .lsr => false
  | .nop => false
  | .ora => false
  | .pha => false
  | .php => false
  | .phx => false
  | .phy => false
  | .pla => false
  | .plp => false
  | .plx => false
  | .ply => false
  | .rmb0 => false
  | .rmb1 => false
  | .rmb2 => false
  | .rmb3 => false
  | .rmb4 => false
  | .rmb5 => false
  | .rmb6 => false
  | .rmb7 => false
  | .rol => false
  | .ror => false
  | .rti => false
  | .rts => false
  | .sbc => false
  | .sec => false
  | .sed => false
  | .sei => false
  | .smb0 => false
  | .smb1 => false
  | .smb2 => false
  | .smb3 => false
  | .smb4 => false
  | .smb5 => false
  | .smb6 => false
  | .smb7 => false
  | .sta => false
  | .stp => true
  | .stx => false
  | .sty => false
  | .stz => false
  | .tax => false
  | .tay => false
  | .trb => true
  | .tsb => true
  | .tsx => false
  | .txa => false
  | .txs => false
  | .tya => false
  | .wai => false

/-! ## `st2205u/interrupt.rs` — the interrupt controller -/

/-- `Interrupt` from `interrupt.rs`. -/
inductive Interrupt where
  | intx
  | timer0
  | timer1
  | timer2
  | timer3
  | portATransition
  | baseTimer
  | lcdBuffer
  | spiTxEmpty
  | spiRxReady
  | uartTx
  | uartRx
  | usb
  | pcm
  | rtc
  deriving Repr, DecidableEq

/-- The bit index assigned to each interrupt source (shared by
`assert_interrupt` and `clear_interrupt_request`). -/
def Interrupt.bitIndex : Interrupt → Nat
  | .intx => 0
  | .timer0 => 1
  | .timer1 => 2
  | .timer2 => 3
  | .timer3 => 4
  | .portATransition => 5
  | .baseTimer => 6
  | .lcdBuffer => 7
  | .spiTxEmpty => 8
  | .spiRxReady => 9
  | .uartTx => 10
  | .uartRx => 11
  | .usb => 12
  | .pcm => 14
  | .rtc => 15

/-- `interrupt::State`. -/
structure InterruptState where
  ireq : U16Register
  shadowIreq : U16Register
  iena : U16Register
  interrupted : Bool
  deriving Repr, DecidableEq

namespace InterruptState

/-- `interrupt::State::new`: all three registers carry the mask `0xDFFF`
(bit 13 does not exist). -/
def new : InterruptState :=
  { ireq := U16Register.new 0x0000 0xDFFF
    shadowIreq := U16Register.new 0x0000 0xDFFF
    iena := U16Register.new 0x0000 0xDFFF
    interrupted := false }

/-- `State::assert_interrupt`: only enabled sources are latched, into both
the visible and the shadow request register. -/
def assertInterrupt (s : InterruptState) (irq : Interrupt) : InterruptState :=
  let mask := 1 <<< irq.bitIndex
  if s.iena.u16 &&& mask ≠ 0 then
    { s with
      ireq := s.ireq.setU16 (s.ireq.u16 ||| mask)
      shadowIreq := s.shadowIreq.setU16 (s.shadowIreq.u16 ||| mask) }
  else s

/-- `State::highest_priority_interrupt`: the lowest set bit of the shadow
request register.  The source iterates bits 0..16; bit 13 is masked out of
`shadow_ireq` by construction, so its `unreachable!()` arm is dropped. -/
def highestPriorityInterrupt (s : InterruptState) : Option Interrupt :=
  let w := s.shadowIreq.u16
  if w &&& (1 <<< 0) ≠ 0 then some .intx
  else if w &&& (1 <<< 1) ≠ 0 then some .timer0
  else if w &&& (1 <<< 2) ≠ 0 then some .timer1
  else if w &&& (1 <<< 3) ≠ 0 then some .timer2
  else if w &&& (1 <<< 4) ≠ 0 then some .timer3
  else if w &&& (1 <<< 5) ≠ 0 then some .portATransition
  else if w &&& (1 <<< 6) ≠ 0 then some .baseTimer
  else if w &&& (1 <<< 7) ≠ 0 then some .lcdBuffer
  else if w &&& (1 <<< 8) ≠ 0 then some .spiTxEmpty
  else if w &&& (1 <<< 9) ≠ 0 then some .spiRxReady
  else if w &&& (1 <<< 10) ≠ 0 then some .uartTx
  else if w &&& (1 <<< 11) ≠ 0 then some .uartRx
  else if w &&& (1 <<< 12) ≠ 0 then some .usb
  else if w &&& (1 <<< 14) ≠ 0 then some .pcm
  else if w &&& (1 <<< 15) ≠ 0 then some .rtc
  else none

/-- `State::clear_interrupt_request`: clears the shadow bit only; the Rust
`!mask` is a `u16` complement. -/
def clearInterruptRequest (s : InterruptState) (irq : Interrupt) : InterruptState :=
  let mask := 1 <<< irq.bitIndex
  { s with shadowIreq := s.shadowIreq.setU16 (s.shadowIreq.u16 &&& (0xFFFF ^^^ mask)) }

/-- `HandlesInterrupt::set_interrupted` for `interrupt::State`. -/
def setInterrupted (s : InterruptState) (interrupted : Bool) : InterruptState :=
  { s with interrupted := interrupted }

end InterruptState

/-- `interrupt::read_ireql`. -/
def read_ireql (s : InterruptState) : Nat := s.ireq.l.get

/-- `interrupt::read_ireqh`. -/
def read_ireqh (s : InterruptState) : Nat := s.ireq.h.get

/-- `interrupt::read_ienal`. -/
def read_ienal (s : InterruptState) : Nat := s.iena.l.get

/-- `interrupt::read_ienah`. -/
def read_ienah (s : InterruptState) : Nat := s.iena.h.get

/-- `interrupt::write_ireql`: written 0 bits clear the request. -/
def write_ireql (s : InterruptState) (value : Nat) : InterruptState :=
  { s with ireq := s.ireq.setL (s.ireq.l.get &&& value) }

/-- `interrupt::write_ireqh`. -/
def write_ireqh (s : InterruptState) (value : Nat) : InterruptState :=
  { s with ireq := s.ireq.setH (s.ireq.h.get &&& value) }

/-- `interrupt::write_ienal`. -/
def write_ienal (s : InterruptState) (value : Nat) : InterruptState :=
  { s with iena := s.iena.setL value }

/-- `interrupt::write_ienah`. -/
def write_ienah (s : InterruptState) (value : Nat) : InterruptState :=
  { s with iena := s.iena.setH value }

/-! ## `st2205u/gpio.rs` and `st2205u/timer.rs` — register state -/

/-- `GpioButtonState` from `gpio.rs` (the crate-level input snapshot). -/
structure GpioButtonState where
  up : Bool
  down : Bool
  left : Bool
  right : Bool
  power : Bool
  menu : Bool
  upsideUp : Bool
  upsideDown : Bool
  screenTopLeft : Bool
  screenTopRight : Bool
  screenBottomLeft : Bool
  screenBottomRight : Bool
  action : Bool
  mute : Bool
  deriving Repr, DecidableEq

/-- `GpioButtonState::default`. -/
def GpioButtonState.default : GpioButtonState :=
  { up := false, down := false, left := false, right := false, power := false, menu := false
    upsideUp := false, upsideDown := false, screenTopLeft := false, screenTopRight := false
    screenBottomLeft := false, screenBottomRight := false, action := false, mute := false }

/-- `gpio::get_input_bit`: the frozen button-to-bit mapping. -/
def getInputBit (bit : Nat) (state : GpioButtonState) : Bool :=
  match bit with
  | 0 => state.up
  | 1 => state.down
  | 2 => state.left
  | 3 => state.right
  | 4 => state.power
  | 5 => state.menu
  | 6 => state.upsideUp
  | 7 => state.upsideDown
  | 8 => state.screenTopLeft
  | 9 => state.screenTopRight
  | 10 => state.screenBottomLeft
  | 11 => state.screenBottomRight
  | 12 => state.action
  | 13 => state.mute
  | _ => false

/-- `gpio::State` (the host `io` handle is external and carries no
emulator-visible state). -/
structure GpioState where
  lastState : GpioButtonState
  pa : U8Register
  pb : U8Register
  pc : U8Register
  pd : U8Register
  pe : U8Register
  pf : U8Register
  pl : U8Register
  psc : U8Register
  pse : U8Register
  pca : U8Register
  pcb : U8Register
  pcc : U8Register
  pcd : U8Register
  pce : U8Register
  pcf : U8Register
  pcl : U8Register
  pfc : U8Register
  pfd : U8Register
  pmcr : U8Register
  deriving Repr, DecidableEq

/-- `gpio::State::new`. -/
def GpioState.new : GpioState :=
  { lastState := GpioButtonState.default
    pa := U8Register.new 0xFF 0xFF
    pb := U8Register.new 0xFF 0xFF
    pc := U8Register.new 0xFF 0xFF
    pd := U8Register.new 0xFF 0xFF
    pe := U8Register.new 0xFF 0xFF
    pf := U8Register.new 0xFF 0xFF
    pl := U8Register.new 0xFF 0xFF
    psc := U8Register.new 0xFF 0xFF
    pse := U8Register.new 0xFF 0xFF
    pca := U8Register.new 0x00 0xFF
    pcb := U8Register.new 0x00 0xFF
    pcc := U8Register.new 0x00 0xFF
    pcd := U8Register.new 0x00 0xFF
    pce := U8Register.new 0x00 0xFF
    pcf := U8Register.new 0x00 0xFF
    pcl := U8Register.new 0x00 0xFF
    pfc := U8Register.new 0x00 0xFF
    pfd := U8Register.new 0x00 0xFE
    pmcr := U8Register.new 0x80 0xFF }

/-- `gpio::read_pa`: the complement of the cached port-A input bits. -/
def read_pa (g : GpioState) : Nat :=
  let result := (List.range 8).foldl
    (fun acc i => acc ||| ((if getInputBit i g.lastState then 1 else 0) <<< i)) 0
  0xFF ^^^ result

/-- `gpio::read_pb`. -/
def read_pb (g : GpioState) : Nat :=
  let result := (List.range 8).foldl
    (fun acc i => acc ||| ((if getInputBit (8 + i) g.lastState then 1 else 0) <<< i)) 0
  0xFF ^^^ result

/-- `timer.rs` `TimerState`. -/
structure TimerState where
  counter : Nat
  reloadValue : Nat
  clockSelect : Nat
  enabled : Bool
  autoReload : Bool
  deriving Repr, DecidableEq

/-- `TimerState::new`. -/
def TimerState.new : TimerState :=
  { counter := 0, reloadValue := 0, clockSelect := 0, enabled := false, autoReload := false }

/-- `TimerIndex` (the four programmable timers). -/
inductive TimerIndex where
  | t0
  | t1
  | t2
  | t3
  deriving Repr, DecidableEq

/-- `TimerBlocksState`. -/
structure TimerBlocksState where
  t0 : TimerState
  t1 : TimerState
  t2 : TimerState
  t3 : TimerState
  elapsedTicks : Nat
  deriving Repr, DecidableEq

namespace TimerBlocksState

/-- `TimerBlocksState::new`. -/
def new : TimerBlocksState :=
  { t0 := TimerState.new, t1 := TimerState.new, t2 := TimerState.new, t3 := TimerState.new
    elapsedTicks := 0 }

/-- Select one of the four timers. -/
def timer (s : TimerBlocksState) : TimerIndex → TimerState
  | .t0 => s.t0
  | .t1 => s.t1
  | .t2 => s.t2
  | .t3 => s.t3

/-- Replace one of the four timers. -/
def withTimer (s : TimerBlocksState) (i : TimerIndex) (t : TimerState) : TimerBlocksState :=
  match i with
  | .t0 => { s with t0 := t }
  | .t1 => { s with t1 := t }
  | .t2 => { s with t2 := t }
  | .t3 => { s with t3 := t }

/-- `TimerBlocksState::read_txcl`. -/
def readTxcl (s : TimerBlocksState) (i : TimerIndex) : Nat := (s.timer i).counter &&& 0xFF

/-- `TimerBlocksState::write_txcl`: sets the low byte of both the counter
and the reload value. -/
def writeTxcl (s : TimerBlocksState) (i : TimerIndex) (value : Nat) : TimerBlocksState :=
  let t := s.timer i
  s.withTimer i
    { t with
      counter := (t.counter &&& 0xFF00) ||| (value &&& 0xFF)
      reloadValue := (t.reloadValue &&& 0xFF00) ||| (value &&& 0xFF) }

/-- `TimerBlocksState::read_txch`. -/
def readTxch (s : TimerBlocksState) (i : TimerIndex) : Nat :=
  let t := s.timer i
  (if t.autoReload then 0x80 else 0) ||| (t.clockSelect <<< 4) ||| ((t.counter >>> 8) &&& 0x0F)

/-- `TimerBlocksState::write_txch`. -/
def writeTxch (s : TimerBlocksState) (i : TimerIndex) (value : Nat) : TimerBlocksState :=
  let t := s.timer i
  s.withTimer i
    { t with
      autoReload := value &&& 0x80 ≠ 0
      clockSelect := (value >>> 4) &&& 0x07
      counter := (t.counter &&& 0x00FF) ||| ((value &&& 0x0F) <<< 8)
      reloadValue := (t.reloadValue &&& 0x00FF) ||| ((value &&& 0x0F) <<< 8) }

/-- `TimerBlocksState::read_tien`. -/
def readTien (s : TimerBlocksState) : Nat :=
  ((if s.t0.enabled then 1 else 0) <<< 0) |||
  ((if s.t1.enabled then 1 else 0) <<< 1) |||
  ((if s.t2.enabled then 1 else 0) <<< 2) |||
  ((if s.t3.enabled then 1 else 0) <<< 3)

/-- `TimerBlocksState::write_tien`. -/
def writeTien (s : TimerBlocksState) (value : Nat) : TimerBlocksState :=
  { s with
    t0 := { s.t0 with enabled := value &&& 0b0001 ≠ 0 }
    t1 := { s.t1 with enabled := value &&& 0b0010 ≠ 0 }
    t2 := { s.t2 with enabled := value &&& 0b0100 ≠ 0 }
    t3 := { s.t3 with enabled := value &&& 0b1000 ≠ 0 } }

end TimerBlocksState

/-! ## `st2205u/dma.rs` — state and pointer modes -/

/-- `dma::State`. -/
structure DmaState where
  srcDptr : U16Register
  destDptr : U16Register
  srcDbkr : U16Register
  destDbkr : U16Register
  dcnt : U16Register
  dsel : U8Register
  dmod : U8Register
  deriving Repr, DecidableEq

/-- `PointerSelection` from `dma.rs`. -/
inductive PointerSelection where
  | source
  | destination
  deriving Repr, DecidableEq

/-- `Mode` from `dma.rs`: pointer update modes. -/
inductive DmaMode where
  | Continue
  | Reload
  | Fixed
  deriving Repr, DecidableEq

namespace DmaState

/-- `dma::State::new` with the masks from the source. -/
def new : DmaState :=
  { srcDptr := U16Register.new 0x0000 0x7FFF
    destDptr := U16Register.new 0x0000 0x7FFF
    srcDbkr := U16Register.new 0x0000 0x87FF
    destDbkr := U16Register.new 0x0000 0x87FF
    dcnt := U16Register.new 0x0000 0x7FFF
    dsel := U8Register.new 0x00 0x03
    dmod := U8Register.new 0x00 0x3F }

/-- `State::get_ptr_selection`. -/
def getPtrSelection (s : DmaState) : PointerSelection :=
  if s.dsel.get &&& 0b01 = 0 then .source else .destination

/-- `State::get_mode`. -/
def getMode (modeBits : Nat) : DmaMode :=
  match modeBits with
  | 0b00 => .Continue
  | 0b01 => .Reload
  | _ => .Fixed

/-- `State::get_src_mode`. -/
def getSrcMode (s : DmaState) : DmaMode := getMode (s.dmod.get &&& 0b11)

/-- `State::get_dest_mode`. -/
def getDestMode (s : DmaState) : DmaMode := getMode ((s.dmod.get &&& 0b1100) >>> 2)

end DmaState

/-! ## `st2205u/addr_space.rs` — the banked 16-bit MCU address space

The Rust `St2205uAddressSpace<'a, A: AddressSpace>` is generic over the
machine address space `A`; here `A` is a type parameter `σ` together with
its read/write interface `AddrOps σ` (reads may mutate, as in the trait). -/

/-- The `AddressSpace` trait interface of `memory.rs` for the machine
address space type `σ`. -/
structure AddrOps (σ : Type) where
  read : σ → Nat → Nat × σ
  write : σ → Nat → Nat → σ

/-- `St2205uAddressSpace` (the host `io` handle of the gpio block is
external and carries no state). -/
structure St2205u (σ : Type) where
  machineAddrSpace : σ
  ram : Nat → Nat
  banks : BankState
  dma : DmaState
  gpio : GpioState
  baseTimer : BaseTimerState
  timer : TimerBlocksState
  interrupt : InterruptState

namespace St2205u

variable {σ : Type}

/-- `St2205uAddressSpace::new` over a machine address space and oscillator
frequency. -/
def new (machineAddrSpace : σ) (frequency : Nat) : St2205u σ :=
  { machineAddrSpace := machineAddrSpace
    ram := fun _ => 0
    banks := BankState.new
    dma := DmaState.new
    gpio := GpioState.new
    baseTimer := BaseTimerState.new frequency
    timer := TimerBlocksState.new
    interrupt := InterruptState.new }

/-- `St2205uAddressSpace::read_ram`. -/
def readRam (st : St2205u σ) (address : Nat) : Nat := st.ram (address % 0x8000)

/-- `St2205uAddressSpace::write_ram`. -/
def writeRam (st : St2205u σ) (address value : Nat) : St2205u σ :=
  { st with ram := fun a => if a = address % 0x8000 then value else st.ram a }

end St2205u

/-- `dma::read_dptrl`. -/
def read_dptrl {σ} (st : St2205u σ) : Nat :=
  match st.dma.getPtrSelection with
  | .source => st.dma.srcDptr.l.get
  | .destination => st.dma.destDptr.l.get

/-- `dma::read_dptrh`. -/
def read_dptrh {σ} (st : St2205u σ) : Nat :=
  match st.dma.getPtrSelection with
  | .source => st.dma.srcDptr.h.get
  | .destination => st.dma.destDptr.h.get

/-- `dma::read_dbkrl`. -/
def read_dbkrl {σ} (st : St2205u σ) : Nat :=
  match st.dma.getPtrSelection with
  | .source => st.dma.srcDbkr.l.get
  | .destination => st.dma.destDbkr.l.get

/-- `dma::read_dbkrh`. -/
def read_dbkrh {σ} (st : St2205u σ) : Nat :=
  match st.dma.getPtrSelection with
  | .source => st.dma.srcDbkr.h.get
  | .destination => st.dma.destDbkr.h.get

/-- `dma::read_dcntl`. -/
def read_dcntl {σ} (st : St2205u σ) : Nat := st.dma.dcnt.l.get

/-- `dma::read_dcnth`. -/
def read_dcnth {σ} (st : St2205u σ) : Nat := st.dma.dcnt.h.get

/-- `dma::read_dsel`. -/
def read_dsel {σ} (st : St2205u σ) : Nat := st.dma.dsel.get

/-- `dma::read_dmod`. -/
def read_dmod {σ} (st : St2205u σ) : Nat := st.dma.dmod.get

namespace St2205u

variable {σ : Type}

/-- `St2205uAddressSpace::read_register` from `addr_space.rs`: every arm is
a pure read of the peripheral state (the Rust receiver is `&mut self`, but
no arm mutates); unimplemented registers read 0. -/
def readRegister (st : St2205u σ) (address : Nat) : Nat :=
  match address with
  | 0x30 => read_irrl st.banks
  | 0x31 => read_irrh st.banks
  | 0x32 => read_prrl st.banks
  | 0x33 => read_prrh st.banks
  | 0x34 => read_drrl st.banks
  | 0x35 => read_drrh st.banks
  | 0x36 => read_brrl st.banks
  | 0x37 => read_brrh st.banks
  | 0x58 => read_dptrl st
  | 0x59 => read_dptrh st
  | 0x5A => read_dbkrl st
  | 0x5B => read_dbkrh st
  | 0x5C => read_dcntl st
  | 0x5D => read_dcnth st
  | 0x5E => read_dsel st
  | 0x5F => read_dmod st
  | 0x00 => read_pa st.gpio
  | 0x01 => read_pb st.gpio
  | 0x02 => st.gpio.pc.get
  | 0x03 => st.gpio.pd.get
  | 0x04 => st.gpio.pe.get
  | 0x05 => st.gpio.pf.get
  | 0x06 => st.gpio.psc.get
  | 0x07 => st.gpio.pse.get
  | 0x08 => st.gpio.pca.get
  | 0x09 => st.gpio.pcb.get
  | 0x0A => st.gpio.pcc.get
  | 0x0B => st.gpio.pcd.get
  | 0x0C => st.gpio.pce.get
  | 0x0D => st.gpio.pcf.get
  | 0x0E => st.gpio.pfc.get
  | 0x0F => st.gpio.pfd.get
  | 0x20 => st.timer.readTxcl .t0
  | 0x21 => st.timer.readTxch .t0
  | 0x22 => st.timer.readTxcl .t1
  | 0x23 => st.timer.readTxch .t1
  | 0x24 => st.timer.readTxcl .t2
  | 0x25 => st.timer.readTxch .t2
  | 0x26 => st.timer.readTxcl .t3
  | 0x27 => st.timer.readTxch .t3
  | 0x28 => st.timer.readTien
  | 0x3A => st.gpio.pmcr.get
  | 0x4E => st.gpio.pl.get
  | 0x4F => st.gpio.pcl.get
  | 0x2A => read_bten st.baseTimer
  | 0x2B => read_btreq st.baseTimer
  | 0x2C => read_btc st.baseTimer
  | 0x3C => read_ireql st.interrupt
  | 0x3D => read_ireqh st.interrupt
  | 0x3E => read_ienal st.interrupt
  | 0x3F => read_ienah st.interrupt
  | _ => 0

/-- `St2205uAddressSpace::read_u8`: the Rust matches on `address as u16`
while indexing RAM with the original `usize` address. -/
def readU8 (ops : AddrOps σ) (st : St2205u σ) (address : Nat) : Nat × St2205u σ :=
  let a := address % 0x10000
  if a ≤ 0x7F then (st.readRegister a, st)
  else if a ≤ 0x1FFF then (st.readRam address, st)
  else
    let regShift : Nat × Nat :=
      if a ≤ 0x3FFF then (bank_brr st.banks, 13)
      else if a ≤ 0x7FFF then
        (if st.interrupt.interrupted then bank_irr st.banks else bank_prr st.banks, 14)
      else (bank_drr st.banks, 15)
    let reg := regShift.fst
    let leftShift := regShift.snd
    if reg &&& (1 <<< 15) ≠ 0 then (st.ram (address % 0x8000), st)
    else
      let addrMask := (1 <<< leftShift) - 1
      let machineAddr := (reg <<< leftShift) ||| (address &&& addrMask)
      let rm := ops.read st.machineAddrSpace machineAddr
      (rm.fst, { st with machineAddrSpace := rm.snd })

/-- The banked-window arm of `St2205uAddressSpace::write_u8`, split out so
that the DMA engine (which always writes inside the DRR window
`0x8000..=0xFFFF`) can use it without mutual recursion with the register
file. -/
def writeBanked (ops : AddrOps σ) (st : St2205u σ) (address value : Nat) : St2205u σ :=
  let a := address % 0x10000
  let regShift : Nat × Nat :=
    if a ≤ 0x3FFF then (bank_brr st.banks, 13)
    else if a ≤ 0x7FFF then
      (if st.interrupt.interrupted then bank_irr st.banks else bank_prr st.banks, 14)
    else (bank_drr st.banks, 15)
  let reg := regShift.fst
  let leftShift := regShift.snd
  if reg &&& (1 <<< 15) ≠ 0 then
    { st with ram := fun x => if x = address % 0x8000 then value else st.ram x }
  else
    let addrMask := (1 <<< leftShift) - 1
    let machineAddr := (reg <<< leftShift) ||| (address &&& addrMask)
    { st with machineAddrSpace := ops.write st.machineAddrSpace machineAddr value }

end St2205u

/-- The source half of one iteration of the `for` loop in
`dma::execute_dma`: bank DRR onto the source DBKR and read through
`st2205u.read_u8(src_ptr)`.  Both loop pointers are ORed with `1 << 15`,
so they lie in the DRR window and the write takes the banked branch. -/
def dmaIterRead {σ} (ops : AddrOps σ) (st : St2205u σ) : Nat × St2205u σ :=
  St2205u.readU8 ops { st with banks := { st.banks with drr := st.dma.srcDbkr } }
    (st.dma.srcDptr.u16 ||| (1 <<< 15))

/-- The destination half of the loop body: bank DRR onto the destination
DBKR and write the byte through the banked window. -/
def dmaIterWrite {σ} (ops : AddrOps σ) (st : St2205u σ) (ptr byte : Nat) : St2205u σ :=
  St2205u.writeBanked ops { st with banks := { st.banks with drr := st.dma.destDbkr } }
    ptr byte

/-- The source-pointer update at the end of the loop body, per the source
DMOD mode (`p` is the in-window pointer the transfer just used). -/
def dmaBumpSrc {σ} (st : St2205u σ) (p : Nat) : St2205u σ :=
  match st.dma.getSrcMode with
  | .Continue | .Reload =>
      { st with dma := { st.dma with srcDptr := st.dma.srcDptr.setU16 ((p + 1) % 0x10000) } }
  | .Fixed => st

/-- The destination-pointer update at the end of the loop body. -/
def dmaBumpDest {σ} (st : St2205u σ) (p : Nat) : St2205u σ :=
  match st.dma.getDestMode with
  | .Continue | .Reload =>
      { st with dma := { st.dma with destDptr := st.dma.destDptr.setU16 ((p + 1) % 0x10000) } }
  | .Fixed => st

/-- The whole loop body, staged exactly as the source: read (DRR banked to
the source DBKR), write (DRR banked to the destination DBKR), then the two
pointer updates. -/
def dmaIter {σ} (ops : AddrOps σ) (st : St2205u σ) : St2205u σ :=
  let srcPtr := st.dma.srcDptr.u16 ||| (1 <<< 15)
  let rs := dmaIterRead ops st
  let st2 := rs.snd
  let destPtr := st2.dma.destDptr.u16 ||| (1 <<< 15)
  let st3 := dmaIterWrite ops st2 destPtr rs.fst
  dmaBumpDest (dmaBumpSrc st3 srcPtr) destPtr

/-- The `for _ in 0..dcnt` loop of `execute_dma` (the bound is read once). -/
def dmaLoop {σ} (ops : AddrOps σ) : Nat → St2205u σ → St2205u σ
  | 0, st => st
  | n + 1, st => dmaLoop ops n (dmaIter ops st)

/-- The post-loop source-pointer restore of `execute_dma` (only Reload
mode restores). -/
def dmaReloadSrc {σ} (st : St2205u σ) (orig : U16Register) : St2205u σ :=
  match st.dma.getSrcMode with
  | .Reload => { st with dma := { st.dma with srcDptr := orig } }
  | _ => st

/-- The post-loop destination-pointer restore of `execute_dma`. -/
def dmaReloadDest {σ} (st : St2205u σ) (orig : U16Register) : St2205u σ :=
  match st.dma.getDestMode with
  | .Reload => { st with dma := { st.dma with destDptr := orig } }
  | _ => st

/-- `dma::execute_dma`: save DRR and the pointers, run the loop `dcnt`
times, restore Reload-mode pointers, restore DRR. -/
def executeDma {σ} (ops : AddrOps σ) (st : St2205u σ) : St2205u σ :=
  let originalDrr := st.banks.drr
  let originalSrcDptr := st.dma.srcDptr
  let originalDestDptr := st.dma.destDptr
  let st1 := dmaLoop ops (st.dma.dcnt.u16) st
  let st2 := dmaReloadDest (dmaReloadSrc st1 originalSrcDptr) originalDestDptr
  { st2 with banks := { st2.banks with drr := originalDrr } }

/-- `dma::write_dptrl`. -/
def write_dptrl {σ} (st : St2205u σ) (val : Nat) : St2205u σ :=
  match st.dma.getPtrSelection with
  | .source => { st with dma := { st.dma with srcDptr := st.dma.srcDptr.setL val } }
  | .destination => { st with dma := { st.dma with destDptr := st.dma.destDptr.setL val } }

/-- `dma::write_dptrh`. -/
def write_dptrh {σ} (st : St2205u σ) (val : Nat) : St2205u σ :=
  match st.dma.getPtrSelection with
  | .source => { st with dma := { st.dma with srcDptr := st.dma.srcDptr.setH val } }
  | .destination => { st with dma := { st.dma with destDptr := st.dma.destDptr.setH val } }

/-- `dma::write_dbkrl`. -/
def write_dbkrl {σ} (st : St2205u σ) (val : Nat) : St2205u σ :=
  match st.dma.getPtrSelection with
  | .source => { st with dma := { st.dma with srcDbkr := st.dma.srcDbkr.setL val } }
  | .destination => { st with dma := { st.dma with destDbkr := st.dma.destDbkr.setL val } }

/-- `dma::write_dbkrh`. -/
def write_dbkrh {σ} (st : St2205u σ) (val : Nat) : St2205u σ :=
  match st.dma.getPtrSelection with
  | .source => { st with dma := { st.dma with srcDbkr := st.dma.srcDbkr.setH val } }
  | .destination => { st with dma := { st.dma with destDbkr := st.dma.destDbkr.setH val } }

/-- `dma::write_dcntl`. -/
def write_dcntl {σ} (st : St2205u σ) (val : Nat) : St2205u σ :=
  { st with dma := { st.dma with dcnt := st.dma.dcnt.setL val } }

/-- `dma::write_dcnth`: setting the high count byte triggers the
transfer. -/
def write_dcnth {σ} (ops : AddrOps σ) (st : St2205u σ) (val : Nat) : St2205u σ :=
  executeDma ops { st with dma := { st.dma with dcnt := st.dma.dcnt.setH val } }

/-- `dma::write_dsel`. -/
def write_dsel {σ} (st : St2205u σ) (val : Nat) : St2205u σ :=
  { st with dma := { st.dma with dsel := st.dma.dsel.set val } }

/-- `dma::write_dmod`. -/
def write_dmod {σ} (st : St2205u σ) (val : Nat) : St2205u σ :=
  { st with dma := { st.dma with dmod := st.dma.dmod.set val } }

namespace St2205u

variable {σ : Type}

/-- `St2205uAddressSpace::write_register`: unimplemented registers are only
logged.  Writing `DCNTH` (0x5D) triggers the DMA transfer. -/
def writeRegister (ops : AddrOps σ) (st : St2205u σ) (address value : Nat) : St2205u σ :=
  match address with
  | 0x30 => { st with banks := write_irrl st.banks value }
  | 0x31 => { st with banks := write_irrh st.banks value }
  | 0x32 => { st with banks := write_prrl st.banks value }
  | 0x33 => { st with banks := write_prrh st.banks value }
  | 0x34 => { st with banks := write_drrl st.banks value }
  | 0x35 => { st with banks := write_drrh st.banks value }
  | 0x36 => { st with banks := write_brrl st.banks value }
  | 0x37 => { st with banks := write_brrh st.banks value }
  | 0x58 => write_dptrl st value
  | 0x59 => write_dptrh st value
  | 0x5A => write_dbkrl st value
  | 0x5B => write_dbkrh st value
  | 0x5C => write_dcntl st value
  | 0x5D => write_dcnth ops st value
  | 0x5E => write_dsel st value
  | 0x5F => write_dmod st value
  | 0x00 => st
  | 0x01 => st
  | 0x02 => { st with gpio := { st.gpio with pc := st.gpio.pc.set value } }
  | 0x03 => { st with gpio := { st.gpio with pd := st.gpio.pd.set value } }
  | 0x04 => { st with gpio := { st.gpio with pe := st.gpio.pe.set value } }
  | 0x05 => { st with gpio := { st.gpio with pf := st.gpio.pf.set value } }
  | 0x06 => { st with gpio := { st.gpio with psc := st.gpio.psc.set value } }
  | 0x07 => { st with gpio := { st.gpio with pse := st.gpio.pse.set value } }
  | 0x08 => { st with gpio := { st.gpio with pca := st.gpio.pca.set value } }
  | 0x09 => { st with gpio := { st.gpio with pcb := st.gpio.pcb.set value } }
  | 0x0A => { st with gpio := { st.gpio with pcc := st.gpio.pcc.set value } }
  | 0x0B => { st with gpio := { st.gpio with pcd := st.gpio.pcd.set value } }
  | 0x0C => { st with gpio := { st.gpio with pce := st.gpio.pce.set value } }
  | 0x0D => { st with gpio := { st.gpio with pcf := st.gpio.pcf.set value } }
  | 0x0E => { st with gpio := { st.gpio with pfc := st.gpio.pfc.set value } }
  | 0x0F => { st with gpio := { st.gpio with pfd := st.gpio.pfd.set value } }
  | 0x20 => { st with timer := st.timer.writeTxcl .t0 value }
  | 0x21 => { st with timer := st.timer.writeTxch .t0 value }
  | 0x22 => { st with timer := st.timer.writeTxcl .t1 value }
  | 0x23 => { st with timer := st.timer.writeTxch .t1 value }
  | 0x24 => { st with timer := st.timer.writeTxcl .t2 value }
  | 0x25 => { st with timer := st.timer.writeTxch .t2 value }
  | 0x26 => { st with timer := st.timer.writeTxcl .t3 value }
  | 0x27 => { st with timer := st.timer.writeTxch .t3 value }
  | 0x28 => { st with timer := st.timer.writeTien value }
  | 0x3A => { st with gpio := { st.gpio with pmcr := st.gpio.pmcr.set value } }
  | 0x4E => st
  | 0x4F => { st with gpio := { st.gpio with pcl := st.gpio.pcl.set value } }
  | 0x2A => { st with baseTimer := write_bten st.baseTimer value }
  | 0x2B => { st with baseTimer := write_btreq st.baseTimer value }
  | 0x2C => { st with baseTimer := write_btc st.baseTimer value }
  | 0x3C => { st with interrupt := write_ireql st.interrupt value }
  | 0x3D => { st with interrupt := write_ireqh st.interrupt value }
  | 0x3E => { st with interrupt := write_ienal st.interrupt value }
  | 0x3F => { st with interrupt := write_ienah st.interrupt value }
  | _ => st

/-- `St2205uAddressSpace::write_u8`. -/
def writeU8 (ops : AddrOps σ) (st : St2205u σ) (address value : Nat) : St2205u σ :=
  let a := address % 0x10000
  if a ≤ 0x7F then st.writeRegister ops a value
  else if a ≤ 0x1FFF then st.writeRam address value
  else st.writeBanked ops address value

/-- The default `AddressSpace::read_u16_le` of `memory.rs`. -/
def readU16Le (ops : AddrOps σ) (st : St2205u σ) (address : Nat) : Nat × St2205u σ :=
  let r1 := st.readU8 ops address
  let r2 := r1.snd.readU8 ops (address + 1)
  (r1.fst ||| r2.fst <<< 8, r2.snd)

/-- `HandlesInterrupt::set_interrupted` for the address space. -/
def setInterrupted (st : St2205u σ) (interrupted : Bool) : St2205u σ :=
  { st with interrupt := st.interrupt.setInterrupted interrupted }

end St2205u

/-! ## `wdc_65c02/core.rs` — CPU registers, flags, stack -/

/-- `Flags` from `core.rs` (bits 4 and 5 are not represented). -/
structure Flags where
  carry : Bool
  zero : Bool
  interruptDisable : Bool
  decimal : Bool
  overflow : Bool
  negative : Bool
  deriving Repr, DecidableEq

namespace Flags

/-- `Flags::default`. -/
def default : Flags :=
  { carry := false, zero := false, interruptDisable := false, decimal := false
    overflow := false, negative := false }

/-- `Flags::to_u8`, transcribed shift by shift (bits 4 and 5 pack as 0). -/
def toU8 (f : Flags) : Nat :=
  let p := 0
  let p := p ||| (if f.negative then 1 else 0)
  let p := p <<< 1
  let p := p ||| (if f.overflow then 1 else 0)
  let p := p <<< 1
  let p := p <<< 1
  let p := p <<< 1
  let p := p ||| (if f.decimal then 1 else 0)
  let p := p <<< 1
  let p := p ||| (if f.interruptDisable then 1 else 0)
  let p := p <<< 1
  let p := p ||| (if f.zero then 1 else 0)
  let p := p <<< 1
  p ||| (if f.carry then 1 else 0)

/-- `Flags::from_u8` (bits 4 and 5 are ignored). -/
def fromU8 (val : Nat) : Flags :=
  { negative := val &&& 0b10000000 ≠ 0
    overflow := val &&& 0b01000000 ≠ 0
    decimal := val &&& 0b00001000 ≠ 0
    interruptDisable := val &&& 0b00000100 ≠ 0
    zero := val &&& 0b00000010 ≠ 0
    carry := val &&& 0b00000001 ≠ 0 }

end Flags

/-- `Registers` from `core.rs`; `sp` is the low byte of the stack
pointer. -/
structure Registers where
  sp : Nat
  pc : Nat
  a : Nat
  x : Nat
  y : Nat
  deriving Repr, DecidableEq

/-- `Registers::full_sp`. -/
def Registers.fullSp (r : Registers) : Nat := r.sp ||| 0x100

/-- `Core` from `core.rs`, over a machine address space `σ`. -/
structure Core (σ : Type) where
  frequency : Nat
  cycles : Nat
  addressSpace : St2205u σ
  registers : Registers
  flags : Flags

namespace Core

variable {σ : Type}

/-- `Core::new`. -/
def new (frequency : Nat) (addressSpace : St2205u σ) : Core σ :=
  { frequency := frequency
    cycles := 0
    flags := Flags.default
    addressSpace := addressSpace
    registers := { sp := 0, pc := 0, a := 0, x := 0, y := 0 } }

/-- Plumbing for `self.address_space.read_u8(...)` on a core. -/
def read8 (ops : AddrOps σ) (core : Core σ) (addr : Nat) : Nat × Core σ :=
  let r := core.addressSpace.readU8 ops addr
  (r.fst, { core with addressSpace := r.snd })

/-- Plumbing for `self.address_space.read_u16_le(...)` on a core. -/
def read16le (ops : AddrOps σ) (core : Core σ) (addr : Nat) : Nat × Core σ :=
  let r := core.addressSpace.readU16Le ops addr
  (r.fst, { core with addressSpace := r.snd })

/-- `Core::push_u8`: write at the full stack pointer, then `u8`-wrapping
decrement of `sp`. -/
def pushU8 (ops : AddrOps σ) (core : Core σ) (val : Nat) : Core σ :=
  let core := { core with
    addressSpace := core.addressSpace.writeU8 ops core.registers.fullSp val }
  { core with registers := { core.registers with sp := (core.registers.sp + 255) % 256 } }

/-- `Core::pop_u8`: `u8`-wrapping increment of `sp`, then read at the full
stack pointer. -/
def popU8 (ops : AddrOps σ) (core : Core σ) : Nat × Core σ :=
  let core := { core with registers := { core.registers with sp := (core.registers.sp + 1) % 256 } }
  core.read8 ops core.registers.fullSp

/-- `Core::push_u16`: high byte first, then low byte. -/
def pushU16 (ops : AddrOps σ) (core : Core σ) (val : Nat) : Core σ :=
  let low := val &&& 0xFF
  let high := (val &&& 0xFF00) >>> 8
  let core := core.pushU8 ops high
  core.pushU8 ops low

/-- `Core::pop_u16`: low byte first, then high byte. -/
def popU16 (ops : AddrOps σ) (core : Core σ) : Nat × Core σ :=
  let rl := core.popU8 ops
  let rh := rl.snd.popU8 ops
  (rl.fst ||| rh.fst <<< 8, rh.snd)

end Core

/-! ## `wdc_65c02/addr_mode.rs` and `instr.rs` — the pieces the claims
exercise: operand reads, RTS, ADC, SBC, and the cycle accounting of
`execute_instruction` -/

/-- `AddressingMode` from `addr_mode.rs` (relative offsets are `i8`). -/
inductive AddressingMode where
  | absolute (addr : Nat)
  | absoluteXIndexed (addr : Nat)
  | absoluteYIndexed (addr : Nat)
  | absoluteXIndexedIndirect (addr : Nat)
  | immediate (imm : Nat)
  | indirect (addr : Nat)
  | xIndexedIndirect (addr : Nat)
  | indirectYIndexed (addr : Nat)
  | relative (offset : Int)
  | zeroPage (addr : Nat)
  | indirectZeroPage (addr : Nat)
  | zeroPageXIndexed (addr : Nat)
  | zeroPageYIndexed (addr : Nat)
  | zeroPageRelative (addr : Nat) (offset : Int)
  | implied
  | absoluteAddress (addr : Nat)
  | indirectAddress (addr : Nat)
  | absoluteXIndexedIndirectAddress (addr : Nat)
  deriving Repr, DecidableEq

/-- `crosses_page` from `addr_mode.rs`. -/
def crossesPage (addr1 addr2 : Nat) : Bool := addr1 &&& 0xFF00 ≠ addr2 &&& 0xFF00

/-- `Instruction` from `instr.rs`. -/
structure Instruction where
  opcode : Opcode
  addressingMode : AddressingMode
  deriving Repr, DecidableEq

/-- `DecodedInstruction` from `decoder.rs`. -/
structure DecodedInstruction where
  instruction : Instruction
  cycles : Nat
  extraPageBoundaryCycle : Bool
  deriving Repr, DecidableEq

namespace AddressingMode

variable {σ : Type}

/-- `AddressingMode::read_operand_u8`: returns the operand byte and whether
a page boundary was crossed; `none` marks the `todo!()`/`panic!` arms. -/
def readOperandU8 (mode : AddressingMode) (ops : AddrOps σ) (core : Core σ) :
    Option ((Nat × Bool) × Core σ) :=
  match mode with
  | .absolute addr =>
      let r := core.read8 ops addr
      some ((r.fst, false), r.snd)
  | .absoluteXIndexed addr =>
      let readAddress := (addr + core.registers.x) % 0x10000
      let r := core.read8 ops readAddress
      some ((r.fst, crossesPage addr readAddress), r.snd)
  | .absoluteYIndexed addr =>
      let readAddress := (addr + core.registers.y) % 0x10000
      let r := core.read8 ops readAddress
      some ((r.fst, crossesPage addr readAddress), r.snd)
  | .absoluteXIndexedIndirect _ => none
  | .immediate imm => some ((imm, false), core)
  | .indirect _ => none
  | .xIndexedIndirect addr =>
      let offsetAddr := (addr + core.registers.x) % 256
      let r1 := core.read16le ops offsetAddr
      let r2 := r1.snd.read8 ops r1.fst
      some ((r2.fst, false), r2.snd)
  | .indirectYIndexed addr =>
      let r1 := core.read16le ops addr
      let ptrOffset := (r1.fst + core.registers.y) % 0x10000
      let r2 := r1.snd.read8 ops ptrOffset
      some ((r2.fst, crossesPage r1.fst ptrOffset), r2.snd)
  | .relative _ => none
  | .zeroPage addr =>
      let r := core.read8 ops addr
      some ((r.fst, false), r.snd)
  | .indirectZeroPage addr =>
      let r1 := core.read16le ops addr
      let r2 := r1.snd.read8 ops r1.fst
      some ((r2.fst, false), r2.snd)
  | .zeroPageXIndexed addr =>
      let r := core.read8 ops ((addr + core.registers.x) % 256)
      some ((r.fst, false), r.snd)
  | .zeroPageYIndexed _ => none
  | .zeroPageRelative _ _ => none
  | .implied => some ((core.registers.a, false), core)
  | .absoluteAddress _ => none
  | .indirectAddress _ => none
  | .absoluteXIndexedIndirectAddress _ => none

end AddressingMode

/-- `is_negative` from `instr.rs`. -/
def isNegative (val : Nat) : Bool := val &&& (1 <<< 7) ≠ 0

/-- `instr::rts`: pops the 16-bit return address straight into PC (there is
no increment in the source). -/
def rts {σ} (ops : AddrOps σ) (core : Core σ) (_ : Instruction) : Core σ × Bool :=
  let r := core.popU16 ops
  ({ r.snd with registers := { r.snd.registers with pc := r.fst } }, false)

/-- `instr::adc`, transcribed including the decimal-mode block and its
extra cycle; `none` propagates an operand-read panic. -/
def adc {σ} (ops : AddrOps σ) (core : Core σ) (inst : Instruction) : Option (Core σ × Bool) := do
  let rb ← inst.addressingMode.readOperandU8 ops core
  let operand := rb.fst.fst
  let boundCrossed := rb.fst.snd
  let core := rb.snd
  let sum := operand + core.registers.a + (if core.flags.carry then 1 else 0)
  let sc : Nat × Core σ :=
    if core.flags.decimal then
      let lowResult :=
        (core.registers.a &&& 0x0F) + (operand &&& 0x0F) + (if core.flags.carry then 1 else 0)
      let lowResult := if lowResult > 9 then ((lowResult + 6) &&& 0x0F) + 16 else lowResult
      let sum := (core.registers.a &&& 0xF0) + (operand &&& 0xF0) + lowResult
      let sum := if sum > 0x90 then sum + 0x60 else sum
      (sum, { core with cycles := core.cycles + 1 })
    else (sum, core)
  let sum := sc.fst
  let core := sc.snd
  let core := { core with
    registers := { core.registers with a := sum &&& 0xFF }
    flags := { core.flags with
      carry := sum ≥ 0x100
      zero := sum &&& 0xFF = 0
      negative := isNegative (sum &&& 0xFF) } }
  let c6 :=
    ((core.registers.a &&& 0x7F) + (operand &&& 0x7F) + (if core.flags.carry then 1 else 0))
      &&& 0b10000000 ≠ 0
  let core := { core with flags := { core.flags with overflow := xor c6 core.flags.carry } }
  some (core, boundCrossed)

/-- The two's-complement `i16 & (2^k - 1)` of the decimal SBC block,
rendered as `Int.emod`. -/
def i16LowBits (x : Int) (modulus : Nat) : Int := x.emod modulus

/-- `instr::sbc`, transcribed: flags are computed from the binary result
before the decimal correction replaces the accumulator value, and the
decimal path adds no cycle. -/
def sbc {σ} (ops : AddrOps σ) (core : Core σ) (inst : Instruction) : Option (Core σ × Bool) := do
  let rb ← inst.addressingMode.readOperandU8 ops core
  let operand := rb.fst.fst
  let boundCrossed := rb.fst.snd
  let core := rb.snd
  let oldCarry := core.flags.carry
  let result := core.registers.a + ((operand &&& 0xFF) ^^^ 0xFF) + (if oldCarry then 1 else 0)
  let core := { core with flags := { core.flags with
    carry := result > 0xFF
    zero := result &&& 0xFF = 0
    overflow :=
      ((core.registers.a ^^^ operand) &&& (core.registers.a ^^^ (result &&& 0xFF))
        &&& 0b10000000) > 0
    negative := isNegative (result &&& 0xFF) } }
  let result : Nat :=
    if core.flags.decimal then
      let value : Int := operand
      let sum : Int :=
        (core.registers.a &&& 0xF : Nat) - i16LowBits value 0x10 + (if oldCarry then 1 else 0) - 1
      let sum : Int := if sum < 0 then i16LowBits (sum - 0x6) 0x10 - 0x10 else sum
      let sum : Int := (core.registers.a &&& 0xF0 : Nat) - ((operand &&& 0xF0 : Nat) : Int) + sum
      let sum : Int := if sum < 0 then sum - 0x60 else sum
      (i16LowBits sum 0x100).toNat
    else result
  let core := { core with registers := { core.registers with a := result &&& 0xFF } }
  some (core, boundCrossed)

/-- The tail of `Core::execute_instruction`: run the dispatched handler,
add the decoded base cycle count, and add one more cycle when the handler
reports a page crossing and the instruction is marked sensitive. -/
def executeWith {σ} (opFn : AddrOps σ → Core σ → Instruction → Option (Core σ × Bool))
    (ops : AddrOps σ) (dins : DecodedInstruction) (core : Core σ) : Option (Core σ) := do
  let rb ← opFn ops core dins.instruction
  let core := { rb.fst with cycles := rb.fst.cycles + dins.cycles }
  if rb.snd && dins.extraPageBoundaryCycle then some { core with cycles := core.cycles + 1 }
  else some core

/-! ## `st2205u/vector.rs` and the interrupt dispatch of `Mcu::step` -/

/-- The interrupt vector addresses of `vector.rs`, per source. -/
def Interrupt.vectorAddr : Interrupt → Nat
  | .intx => 0x7FF8
  | .timer0 => 0x7FF6
  | .timer1 => 0x7FF4
  | .timer2 => 0x7FF2
  | .timer3 => 0x7FF0
  | .portATransition => 0x7FEE
  | .baseTimer => 0x7FEC
  | .lcdBuffer => 0x7FEA
  | .spiTxEmpty => 0x7FE8
  | .spiRxReady => 0x7FE6
  | .uartTx => 0x7FE4
  | .uartRx => 0x7FE2
  | .usb => 0x7FE0
  | .pcm => 0x7FDC
  | .rtc => 0x7FDA

/-- The `RESET` vector address. -/
def RESET_VECTOR : Nat := 0x7FFC

/-- The entry tail of the interrupt dispatch in `Mcu::step` of `mcu.rs`:
push PC (high byte first) then the packed flags, and load PC from the
vector. -/
def interruptEnter {σ} (ops : AddrOps σ) (core : Core σ) (vec : Nat) : Core σ :=
  let core := core.pushU16 ops core.registers.pc
  let core := core.pushU8 ops core.flags.toU8
  let rv := core.addressSpace.readU16Le ops vec
  { core with
    addressSpace := rv.snd
    registers := { core.registers with pc := rv.fst } }

/-- The dispatch head of `Mcu::step`: check the gate conditions,
acknowledge the shadow request, set the interrupted latch, then enter
through the vector. -/
def dispatchPendingInterrupt {σ} (ops : AddrOps σ) (core : Core σ) : Core σ :=
  let interrupt := core.addressSpace.interrupt.highestPriorityInterrupt
  if !core.flags.interruptDisable && !core.addressSpace.interrupt.interrupted then
    match interrupt with
    | some irq =>
      let core := { core with
        addressSpace := { core.addressSpace with
          interrupt := core.addressSpace.interrupt.clearInterruptRequest irq } }
      let core := { core with addressSpace := core.addressSpace.setInterrupted true }
      interruptEnter ops core irq.vectorAddr
    | none => core
  else core

/-! ## `handheld.rs` and `main.rs` — start-up validation and exit paths -/

/-- `ConfigurationError` from `handheld.rs`. -/
inductive ConfigurationError where
  | invalidOtpSize (size : Nat)
  | invalidFlashSize (size : Nat)
  deriving Repr, DecidableEq

/-- The validation performed by `HandheldAddressSpace::new`:
`Otp::try_from` requires exactly `OTP_SIZE = 0x4000` bytes and
`Flash::new` requires exactly `CHIP_CAPACITY = 0x200000` bytes. -/
def handheldAddressSpaceNew (otp flash : List Nat) : Except ConfigurationError Unit :=
  if otp.length ≠ 0x4000 then .error (.invalidOtpSize otp.length)
  else if flash.length ≠ CHIP_CAPACITY then .error (.invalidFlashSize flash.length)
  else .ok ()

/-- The host-environment outcomes of `main`'s fallible start-up steps in
`main.rs`: the two `std::fs::read` results, audio stream setup, and
`stream.play()`. -/
structure StartupEnv where
  otpRead : Option (List Nat)
  flashRead : Option (List Nat)
  audioSetup : Bool
  audioPlay : Bool

/-- The observable outcome of `main`'s start-up phase.  Every failure path
of `main` is `eprintln!` followed by a bare `return` from `fn main()`,
which terminates the process with exit status 0. -/
structure StartupOutcome where
  stderrMessage : Option String
  exitCode : Nat
  reachedPacingLoop : Bool
  deriving Repr, DecidableEq

/-- The start-up phase of `main` in `main.rs`, up to the pacing loop. -/
def mainStartup (env : StartupEnv) : StartupOutcome :=
  match env.otpRead with
  | none =>
      { stderrMessage := some "Could not read OTP file", exitCode := 0
        reachedPacingLoop := false }
  | some otpData =>
    match env.flashRead with
    | none =>
        { stderrMessage := some "Could not read flash file", exitCode := 0
          reachedPacingLoop := false }
    | some flashData =>
      if !env.audioSetup then
        { stderrMessage := some "Could not setup audio stream", exitCode := 0
          reachedPacingLoop := false }
      else if !env.audioPlay then
        { stderrMessage := some "Could not play audio stream", exitCode := 0
          reachedPacingLoop := false }
      else
        match handheldAddressSpaceNew otpData flashData with
        | .error _ =>
            { stderrMessage := some "Could not initialize the Miuchiz handheld device"
              exitCode := 0, reachedPacingLoop := false }
        | .ok _ =>
            { stderrMessage := none, exitCode := 0, reachedPacingLoop := true }

/-! ## Concrete states used by counterexamples and witnesses -/

/-- An all-zero flash in plain data read mode. -/
def flashDemo0 : Flash :=
  { data := fun _ => 0x00, readMode := .data, commandWrites := RingBuf.new }

/-- `flashDemo0` after the three byte-program unlock writes. -/
def flashDemo3 : Flash :=
  ((flashDemo0.write_u8 0xAAA 0xAA).write_u8 0x555 0x55).write_u8 0xAAA 0xA0

/-- `flashDemo3` after the byte-program data write `(0x100, 0x42)`. -/
def flashDemo4 : Flash := flashDemo3.write_u8 0x100 0x42

/-- A fresh LCD driven with the `EcControl` command (0x81, base table)
followed by the two voltage data bytes `d0` and `d1`. -/
def lcdEcSequence (d0 d1 : Nat) : Option (Lcd × Bool) := do
  let r1 ← Lcd.new.write_u8 0 0x81
  let r2 ← r1.fst.write_u8 1 d0
  r2.fst.write_u8 1 d1

/-- A start-up environment whose OTP file reads successfully but is empty
(0 bytes instead of 16,384). -/
def startupEnvDemo : StartupEnv :=
  { otpRead := some [], flashRead := some [], audioSetup := true, audioPlay := true }

/-- A trivial machine address space over `Unit`: reads return 0, writes are
dropped. -/
def trivOps : AddrOps Unit :=
  { read := fun s _ => (0, s), write := fun s _ _ => s }

/-- An MCU address space whose RAM holds the 16-bit value `0x1234`
(little-endian) at stack slots `0x101` and `0x102`. -/
def rtsDemoSt : St2205u Unit :=
  { St2205u.new () 16000000 with
    ram := fun a => if a = 0x101 then 0x34 else if a = 0x102 then 0x12 else 0 }

/-- A CPU core (SP = 0) over `rtsDemoSt`. -/
def rtsDemoCore : Core Unit := Core.new 16000000 rtsDemoSt

/-- A freshly reset core with the decimal flag set. -/
def decimalDemoCore : Core Unit :=
  { Core.new 16000000 (St2205u.new () 16000000) with
    flags := { Flags.default with decimal := true } }

/-- A core with a pending base-timer shadow request (bit 6), `sp = 0xFF`
and distinctive register values. -/
def irqDemoCore : Core Unit :=
  { Core.new 16000000
      { St2205u.new () 16000000 with
        interrupt := { InterruptState.new with
          shadowIreq := InterruptState.new.shadowIreq.setU16 (1 <<< 6) } } with
    registers := { sp := 0xFF, pc := 0x1234, a := 1, x := 2, y := 3 } }

/-! # Theorems

First some bit-arithmetic facts used throughout, then the claims. -/

theorem land_two_pow_sub_one (n k : Nat) : n &&& (2 ^ k - 1) = n % 2 ^ k :=
  Nat.and_pow_two_sub_one_eq_mod n k

theorem land_255 (n : Nat) : n &&& 255 = n % 256 := by
  have h := land_two_pow_sub_one n 8; norm_num at h; exact h

theorem land_32767 (n : Nat) : n &&& 32767 = n % 32768 := by
  have h := land_two_pow_sub_one n 15; norm_num at h; exact h

theorem land_65535 (n : Nat) : n &&& 65535 = n % 65536 := by
  have h := land_two_pow_sub_one n 16; norm_num at h; exact h

theorem shiftLeft8_eq (n : Nat) : n <<< 8 = n * 256 := by
  rw [Nat.shiftLeft_eq]

theorem shiftRight8_eq (n : Nat) : n >>> 8 = n / 256 := by
  rw [Nat.shiftRight_eq_div_pow]

theorem lor_shiftLeft8 (a b : Nat) (ha : a < 256) : a ||| b <<< 8 = a + 256 * b := by
  have ha' : a < 2 ^ 8 := by norm_num; omega
  have h := Nat.mul_add_lt_is_or ha' b
  norm_num at h
  rw [Nat.shiftLeft_eq, Nat.lor_comm, Nat.mul_comm]
  norm_num
  omega

theorem byte_split_and (k j m b : Nat) (hj : j < 256) (hb : b < 256) :
    (256 * k + j) &&& (256 * m + b) = 256 * (k &&& m) + (j &&& b) := by
  have h1 : 256 * k + j = j ||| k <<< 8 := by rw [lor_shiftLeft8 j k hj]; ring
  have h2 : 256 * m + b = b ||| m <<< 8 := by rw [lor_shiftLeft8 b m hb]; ring
  have hjb : j &&& b < 256 := lt_of_le_of_lt Nat.and_le_right hb
  have h3 : 256 * (k &&& m) + (j &&& b) = (j &&& b) ||| (k &&& m) <<< 8 := by
    rw [lor_shiftLeft8 _ _ hjb]; ring
  rw [h1, h2, h3]
  apply Nat.eq_of_testBit_eq
  intro i
  simp only [Nat.testBit_and, Nat.testBit_or, Nat.testBit_shiftLeft]
  rcases Nat.lt_or_ge i 8 with h | h
  · have hd : ¬ (i ≥ 8) := by omega
    simp [hd]
  · have h2pow : (256 : Nat) ≤ 2 ^ i := by
      calc (256 : Nat) = 2 ^ 8 := by norm_num
      _ ≤ 2 ^ i := Nat.pow_le_pow_right (by norm_num) h
    have hji : j.testBit i = false := Nat.testBit_lt_two_pow (by omega)
    have hbi : b.testBit i = false := Nat.testBit_lt_two_pow (by omega)
    have hjbi : (j &&& b).testBit i = false := by
      rw [Nat.testBit_and, hji]; rfl
    simp [hji, hbi, h, hjbi, Nat.testBit_and]

/-! ## Claim C5 — PRR/IRR write masking and read-back -/

/-- The word stored by `U16Register::set_u16` under the PRR/IRR masks. -/
theorem setU16_prr_mask (r : U16Register) (v : Nat) (hv : v < 65536)
    (hl : r.lMask = 0xFF) (hh : r.hMask = 0x8F) :
    (r.setU16 v).u16 = v &&& 0x8FFF ∧
    (r.setU16 v).l.get = v % 256 ∧
    (r.setU16 v).h.get = v / 256 &&& 0x8F := by
  simp only [U16Register.lMask, U16Register.hMask] at hl hh
  have hsplit : v = 256 * (v / 256) + v % 256 := by omega
  have hmask : (0x8FFF : Nat) = 256 * 0x8F + 0xFF := by norm_num
  have hva : v &&& 0x8FFF = 256 * (v / 256 &&& 0x8F) + v % 256 := by
    calc v &&& 0x8FFF = (256 * (v / 256) + v % 256) &&& (256 * 0x8F + 0xFF) := by
          rw [← hsplit, ← hmask]
      _ = 256 * (v / 256 &&& 0x8F) + (v % 256 &&& 0xFF) :=
          byte_split_and _ _ _ _ (by omega) (by norm_num)
      _ = 256 * (v / 256 &&& 0x8F) + v % 256 := by rw [land_255]; omega
  have hvl : v &&& 0x00FF = v % 256 := land_255 v
  have hvh : (v &&& 0xFF00) >>> 8 = v / 256 := by
    have hm : (0xFF00 : Nat) = 256 * 0xFF + 0 := by norm_num
    have h1 : v &&& 0xFF00 = 256 * (v / 256 &&& 0xFF) + (v % 256 &&& 0) := by
      rw [hm]
      calc v &&& (256 * 0xFF + 0) = (256 * (v / 256) + v % 256) &&& (256 * 0xFF + 0) := by
            rw [← hsplit]
        _ = 256 * (v / 256 &&& 0xFF) + (v % 256 &&& 0) :=
            byte_split_and _ _ _ _ (by omega) (by norm_num)
    have h2 : v / 256 &&& 0xFF = v / 256 := by
      rw [land_255]; omega
    rw [h1, h2, Nat.and_zero, shiftRight8_eq]
    omega
  have hhv : v / 256 &&& 0x8F < 256 := lt_of_le_of_lt Nat.and_le_right (by norm_num)
  refine ⟨?_, ?_, ?_⟩
  · simp only [U16Register.setU16, U16Register.u16, U8Register.set, U8Register.get, hl, hh,
      hvl, hvh]
    have : v % 256 &&& 0xFF = v % 256 := by rw [land_255]; omega
    rw [this, lor_shiftLeft8 _ _ (by omega), hva]
    ring
  · simp only [U16Register.setU16, U8Register.set, U8Register.get, hl, hvl]
    rw [land_255]; omega
  · simp only [U16Register.setU16, U8Register.set, U8Register.get, hh, hvh]

/-- Claim C5, corrected: a 16-bit value written to PRR (or IRR) is stored
masked by `0x8FFF` — bits 0..11 and bit 15, not the low 15 bits; bits
12..14 do not exist.  A subsequent read of the low and high bytes returns
the stored bits ORed with the non-existent bits reading as 1 (`0x70` in the
high byte). -/
theorem C5_prr_irr_write_read (b : BankState) (v : Nat) (hv : v < 65536)
    (hpl : b.prr.lMask = 0xFF) (hph : b.prr.hMask = 0x8F)
    (hil : b.irr.lMask = 0xFF) (hih : b.irr.hMask = 0x8F) :
    (set_prr b v).prr.u16 = v &&& 0x8FFF ∧
    read_prrl (set_prr b v) = (v &&& 0x8FFF) % 256 ∧
    read_prrh (set_prr b v) = (v &&& 0x8FFF) / 256 ||| 0x70 ∧
    (set_irr b v).irr.u16 = v &&& 0x8FFF ∧
    read_irrl (set_irr b v) = (v &&& 0x8FFF) % 256 ∧
    read_irrh (set_irr b v) = (v &&& 0x8FFF) / 256 ||| 0x70 := by
  obtain ⟨hpu, hplo, hphi⟩ := setU16_prr_mask b.prr v hv hpl hph
  obtain ⟨hiu, hilo, hihi⟩ := setU16_prr_mask b.irr v hv hil hih
  have hsplit : v &&& 0x8FFF = 256 * (v / 256 &&& 0x8F) + v % 256 := by
    rw [← hpu, ← hphi]
    conv_lhs => rw [U16Register.u16]
    rw [lor_shiftLeft8 _ _ (by rw [hplo]; omega), hplo]
    ring
  have hsp : (set_prr b v).prr = b.prr.setU16 v := rfl
  have hsi : (set_irr b v).irr = b.irr.setU16 v := rfl
  have hml : ∀ w, (b.prr.setU16 w).lMask = b.prr.lMask := fun _ => rfl
  have hmh : ∀ w, (b.prr.setU16 w).hMask = b.prr.hMask := fun _ => rfl
  have hmli : ∀ w, (b.irr.setU16 w).lMask = b.irr.lMask := fun _ => rfl
  have hmhi : ∀ w, (b.irr.setU16 w).hMask = b.irr.hMask := fun _ => rfl
  have hdiv : (v &&& 0x8FFF) / 256 = v / 256 &&& 0x8F := by omega
  refine ⟨hpu, ?_, ?_, hiu, ?_, ?_⟩
  · simp only [read_prrl, hsp, hml, hpl, hplo]
    rw [(by decide : (0xFF : Nat) ^^^ 0xFF = 0), Nat.or_zero]
    omega
  · simp only [read_prrh, hsp, hmh, hph, hphi]
    rw [(by decide : (0xFF : Nat) ^^^ 0x8F = 0x70), hdiv]
  · simp only [read_irrl, hsi, hmli, hil, hilo]
    rw [(by decide : (0xFF : Nat) ^^^ 0xFF = 0), Nat.or_zero]
    omega
  · simp only [read_irrh, hsi, hmhi, hih, hihi]
    rw [(by decide : (0xFF : Nat) ^^^ 0x8F = 0x70), hdiv]

/-- Witness for C5 at the power-on bank state and the value `0x1234`. -/
theorem C5_prr_irr_write_read_witness :
    (0x1234 : Nat) < 65536 ∧
    ((set_prr BankState.new 0x1234).prr.u16 = 0x1234 &&& 0x8FFF ∧
     read_prrl (set_prr BankState.new 0x1234) = (0x1234 &&& 0x8FFF) % 256 ∧
     read_prrh (set_prr BankState.new 0x1234) = (0x1234 &&& 0x8FFF) / 256 ||| 0x70 ∧
     (set_irr BankState.new 0x1234).irr.u16 = 0x1234 &&& 0x8FFF ∧
     read_irrl (set_irr BankState.new 0x1234) = (0x1234 &&& 0x8FFF) % 256 ∧
     read_irrh (set_irr BankState.new 0x1234) = (0x1234 &&& 0x8FFF) / 256 ||| 0x70) :=
  ⟨by norm_num,
   C5_prr_irr_write_read BankState.new 0x1234 (by norm_num) (by decide) (by decide)
     (by decide) (by decide)⟩

/-- Counterexample to C5 as stated: writing `0x8000` to PRR stores
`0x8000` (bit 15 is writable), not the value's low 15 bits (which would be
0), and reading the high byte returns `0xF0`, not `0x70`. -/
theorem C5_counterexample :
    (write_prrh (write_prrl BankState.new 0x00) 0x80).prr.u16 = 0x8000 ∧
    (0x8000 : Nat) ≠ 0x8000 &&& 0x7FFF ∧
    read_prrh (write_prrh (write_prrl BankState.new 0x00) 0x80) = 0xF0 ∧
    (0xF0 : Nat) ≠ (0x8000 &&& 0x7FFF) / 256 ||| 0x70 := by decide

/-! ## Claim C4 — base timer increment count and schedule -/

/-- `State::update` when the next tick has not been reached. -/
theorem baseTimer_update_of_lt (s : BaseTimerState) (h : s.elapsedTicks < s.nextCounterTick) :
    s.update = (s, false) := by
  simp only [BaseTimerState.update]
  rw [if_pos h]

/-- The counter-visible effect of `State::update` when the next tick has
been reached. -/
theorem baseTimer_update_of_ge (s : BaseTimerState)
    (h : ¬ s.elapsedTicks < s.nextCounterTick) :
    (s.update.fst.counter = s.counter + 1) ∧
    (s.update.fst.nextCounterTick =
      (s.counter + 1 + 1) * s.inputClockFrequency / TIMER_FREQUENCY) ∧
    (s.update.fst.inputClockFrequency = s.inputClockFrequency) := by
  simp only [BaseTimerState.update]
  rw [if_neg h]
  exact ⟨rfl, rfl, rfl⟩

/-- Invariant of the per-cycle base-timer run: the counter equals
`(8 m + 7) / 15625` and the next tick is the floor-scheduled
`(counter + 1) * 16_000_000 / 8192`. -/
theorem runBaseTimer_spec (m : Nat) :
    (runBaseTimer m).counter = (8 * m + 7) / 15625 ∧
    (runBaseTimer m).nextCounterTick = ((8 * m + 7) / 15625 + 1) * 16000000 / 8192 ∧
    (runBaseTimer m).inputClockFrequency = 16000000 := by
  induction m with
  | zero => exact ⟨by decide, by decide, rfl⟩
  | succ t ih =>
    obtain ⟨hc, hn, hf⟩ := ih
    have hstep : runBaseTimer (t + 1) =
        (((runBaseTimer t).setElapsedTicks (t + 1)).update).fst := rfl
    set s := runBaseTimer t with hs
    set s1 := s.setElapsedTicks (t + 1) with hs1
    have hs1c : s1.counter = s.counter := rfl
    have hs1n : s1.nextCounterTick = s.nextCounterTick := rfl
    have hs1f : s1.inputClockFrequency = s.inputClockFrequency := rfl
    have hs1e : s1.elapsedTicks = t + 1 := rfl
    by_cases h : s1.elapsedTicks < s1.nextCounterTick
    · rw [hstep, baseTimer_update_of_lt s1 h]
      rw [hs1e, hs1n, hn] at h
      refine ⟨?_, ?_, ?_⟩
      · rw [hs1c, hc]; omega
      · rw [hs1n, hn]
        have : (8 * (t + 1) + 7) / 15625 = (8 * t + 7) / 15625 := by omega
        rw [this]
      · rw [hs1f, hf]
    · obtain ⟨hu1, hu2, hu3⟩ := baseTimer_update_of_ge s1 h
      rw [hs1e, hs1n, hn] at h
      rw [hstep]
      refine ⟨?_, ?_, ?_⟩
      · rw [hu1, hs1c, hc]; omega
      · rw [hu2, hs1c, hs1f, hc, hf]
        simp only [TIMER_FREQUENCY]
        have : (8 * (t + 1) + 7) / 15625 = (8 * t + 7) / 15625 + 1 := by omega
        rw [this]
      · rw [hu3, hs1f, hf]

/-- Claim C4, corrected: driving the base timer once per oscillator cycle
for `m` cycles increments the counter exactly
`(m * 8192 + 7168) / 16_000_000` times — that is,
`ceil((m+1) * 8192 / 16_000_000) - 1`, not `floor(m * 8192 / 16_000_000)` —
and the next increment is scheduled at
`floor((counter + 1) * 16_000_000 / 8192)` oscillator cycles (floor, not
ceil): `update_next_counter_tick` uses integer division. -/
theorem C4_base_timer_count (m : Nat) :
    (runBaseTimer m).counter = (m * 8192 + 7168) / 16000000 ∧
    (runBaseTimer m).nextCounterTick =
      ((runBaseTimer m).counter + 1) * 16000000 / 8192 := by
  obtain ⟨hc, hn, hf⟩ := runBaseTimer_spec m
  have hscale : (m * 8192 + 7168) / 16000000 = (8 * m + 7) / 15625 := by omega
  exact ⟨by rw [hc, hscale], by rw [hn, hc]⟩

/-- Counterexample to C4 as stated: after 1953 oscillator cycles the
counter has been incremented once, while `floor(1953 * 8192 / 16000000)`
is 0; and the first increment is scheduled at oscillator cycle 1953
(floor), not `ceil(1 * 16000000 / 8192) = 1954`. -/
theorem C4_counterexample :
    (runBaseTimer 1953).counter = 1 ∧
    (1953 * 8192 / 16000000 : Nat) = 0 ∧
    (runBaseTimer 0).nextCounterTick = 1953 ∧
    ((0 + 1) * 16000000 + 8191) / 8192 = 1954 := by
  refine ⟨?_, by norm_num, by decide, by norm_num⟩
  have h := runBaseTimer_spec 1953
  rw [h.1]

/-! ## Claim C3 — flash status-read mode -/

/-- A fresh (cleared) ring buffer matches neither unlock sequence. -/
theorem ringBuf_new_no_match :
    RingBuf.new.endsWith ERASE = false ∧ RingBuf.new.endsWith BYTE_PROGRAM = false := by decide

/-- Claim C3, corrected: after a recognized final command write the flash
enters a status-read mode keyed to that write's address — a read at that
exact address returns `0xC0` and a read anywhere else returns the raw data
byte — but the mode does not end on a read at another address (reads never
change the flash state: `read_u8` is a pure function of it), nor on the
next write: the first subsequent write is buffered as a new command byte
and leaves the status mode in place.  The mode is re-keyed only by a later
recognized final command write. -/
theorem C3_flash_status_mode (f : Flash) (address value : Nat)
    (hrec : f.commandWrites.endsWith ERASE = true ∨
            f.commandWrites.endsWith BYTE_PROGRAM = true) :
    (f.write_u8 address value).readMode = FlashReadMode.status address ∧
    (f.write_u8 address value).read_u8 address = 0xC0 ∧
    (∀ other, other ≠ address →
      (f.write_u8 address value).read_u8 other =
        (f.write_u8 address value).data (other % CHIP_CAPACITY)) ∧
    (∀ a2 v2, ((f.write_u8 address value).write_u8 a2 v2).readMode =
        FlashReadMode.status address) := by
  have hmode : (f.write_u8 address value).readMode = FlashReadMode.status address := by
    by_cases hE : f.commandWrites.endsWith ERASE
    · simp only [Flash.write_u8, hE, if_true]
    · have hB : f.commandWrites.endsWith BYTE_PROGRAM = true := by
        rcases hrec with h | h
        · exact absurd h hE
        · exact h
      simp only [Flash.write_u8, hE, hB]
      rfl
  have hbuf : (f.write_u8 address value).commandWrites = RingBuf.new := by
    by_cases hE : f.commandWrites.endsWith ERASE
    · simp only [Flash.write_u8, hE, if_true]
      rfl
    · have hB : f.commandWrites.endsWith BYTE_PROGRAM = true := by
        rcases hrec with h | h
        · exact absurd h hE
        · exact h
      simp only [Flash.write_u8, hE, hB]
      rfl
  refine ⟨hmode, ?_, ?_, ?_⟩
  · simp only [Flash.read_u8, hmode, if_true]
    rfl
  · intro other hother
    simp only [Flash.read_u8, hmode]
    rw [if_neg hother]
  · intro a2 v2
    set f1 := f.write_u8 address value with hf1
    have hE2 : f1.commandWrites.endsWith ERASE = false := by
      rw [hbuf]; exact ringBuf_new_no_match.1
    have hB2 : f1.commandWrites.endsWith BYTE_PROGRAM = false := by
      rw [hbuf]; exact ringBuf_new_no_match.2
    simp only [Flash.write_u8, hE2, hB2, Bool.false_eq_true, if_false]
    exact hmode

/-- Witness for C3: the concrete byte-program sequence of `flashDemo3`. -/
theorem C3_flash_status_mode_witness :
    flashDemo3.commandWrites.endsWith BYTE_PROGRAM = true ∧
    ((flashDemo3.write_u8 0x100 0x42).readMode = FlashReadMode.status 0x100 ∧
     (flashDemo3.write_u8 0x100 0x42).read_u8 0x100 = 0xC0 ∧
     (∀ other, other ≠ 0x100 →
       (flashDemo3.write_u8 0x100 0x42).read_u8 other =
         (flashDemo3.write_u8 0x100 0x42).data (other % CHIP_CAPACITY)) ∧
     (∀ a2 v2, ((flashDemo3.write_u8 0x100 0x42).write_u8 a2 v2).readMode =
         FlashReadMode.status 0x100)) :=
  ⟨by decide, C3_flash_status_mode flashDemo3 0x100 0x42 (Or.inr (by decide))⟩

/-- Counterexample to C3 as stated: after the byte-program sequence ending
at address `0x100`, a read at address 0 returns raw data, yet a read at
`0x100` still returns the status byte `0xC0` (not the programmed `0x42`),
and even a subsequent unrecognized write leaves the status mode keyed to
`0x100` — the mode does not last "only until the next write or a read at
any other address". -/
theorem C3_counterexample :
    flashDemo4.read_u8 0x0 = 0x00 ∧
    flashDemo4.read_u8 0x100 = 0xC0 ∧
    flashDemo4.data 0x100 = 0x42 ∧
    (flashDemo4.write_u8 0x200 0x99).read_u8 0x100 = 0xC0 ∧
    (flashDemo4.write_u8 0x200 0x99).data 0x100 = 0x42 := by decide

/-! ## Claim C6 — EcControl voltage data bytes -/

set_option maxRecDepth 8000

/-- Claim C6 is a code bug: `Voltage::set_p2` masks `high` with
`val_mask = 0b111000000` instead of `0b111` and then shifts left by 6, so
the surviving bits land above bit 8 and are masked away by `Voltage::set`.
After `EcControl` with data bytes `d0 = 0` and any `d1 < 256`, the 9-bit
voltage register is `0` — its high 3 bits are always cleared — instead of
the documented `(d0 & 0x3F) | ((d1 & 0x07) << 6)`; a frame is still
emitted on the second byte.  At `d1 = 7` the documented value is `0x1C0`,
not `0`. -/
theorem C6_ec_control_voltage_bug :
    (∀ d1, d1 < 256 →
      ((lcdEcSequence 0x00 d1).map fun r => (r.fst.voltage.get, r.snd)) = some (0x00, true)) ∧
    (0x00 &&& 0x3F) ||| ((0x07 &&& 0x07) <<< 6) = 0x1C0 := by
  constructor
  · decide
  · decide

/-! ## Claim C1 — totality of the CPU step -/

/-- Claim C1 is a code bug: the opcode dispatch of
`Core::execute_instruction` reaches `todo!()` — a Rust panic that aborts
the step — for the documented 65C02 opcodes BIT, BVC, BVS, TRB and TSB
(and for BRK/STP), and `psg::State::write_psgxa` reaches `todo!()` when
the selected channel is in tone mode (as after writing `PSGM = 0b01`),
contradicting both "every documented opcode executes its semantics" and
"every MMIO write inside a step is handled or ignored". -/
theorem C1_step_not_total :
    executeInstructionPanics .bit = true ∧
    executeInstructionPanics .bvc = true ∧
    executeInstructionPanics .bvs = true ∧
    executeInstructionPanics .trb = true ∧
    executeInstructionPanics .tsb = true ∧
    executeInstructionPanics .lda = false ∧
    ((PsgState.new.writePsgm 0b01).writePsgxa .channel0 0x80).isNone = true ∧
    ((PsgState.new.writePsgm 0b00).writePsgxa .channel0 0x80).isNone = false := by
  refine ⟨rfl, rfl, rfl, rfl, rfl, rfl, rfl, rfl⟩

/-! ## Claim C8 — start-up failure reporting and exit code -/

/-- Claim C8, corrected: every start-up failure is reported to standard
error and terminates the process before the pacing loop, but the exit code
is 0, not non-zero — each failure path of `main` is a bare `return` from
`fn main()`. -/
theorem C8_startup_failure_exit (env : StartupEnv) :
    (mainStartup env).exitCode = 0 ∧
    ((mainStartup env).reachedPacingLoop = false ↔
      ((mainStartup env).stderrMessage).isSome = true) := by
  rcases env with ⟨o, fl, audioSetup, audioPlay⟩
  cases o with
  | none => simp [mainStartup]
  | some otpData =>
    cases fl with
    | none => simp [mainStartup]
    | some flashData =>
      cases audioSetup <;> cases audioPlay <;>
        (simp [mainStartup]
         try (rcases h : handheldAddressSpaceNew otpData flashData with e | u <;> simp [h]))

/-- Witness for C8: the empty-OTP environment. -/
theorem C8_startup_failure_exit_witness :
    (mainStartup startupEnvDemo).exitCode = 0 ∧
    ((mainStartup startupEnvDemo).reachedPacingLoop = false ↔
      ((mainStartup startupEnvDemo).stderrMessage).isSome = true) :=
  C8_startup_failure_exit startupEnvDemo

/-- Counterexample to C8 as stated: with an empty OTP file the program
reports the error and stops before the pacing loop, but the process exit
code is 0, not non-zero. -/
theorem C8_counterexample :
    ((mainStartup startupEnvDemo).stderrMessage).isSome = true ∧
    (mainStartup startupEnvDemo).reachedPacingLoop = false ∧
    (mainStartup startupEnvDemo).exitCode = 0 := by decide

/-! ## Shared lemmas — stack and low-RAM accesses of the MCU address
space -/

/-- ORing `0x100` onto a byte value is plain addition. -/
theorem lor_0x100 (x : Nat) (hx : x < 256) : x ||| 0x100 = 0x100 + x := by
  have h := Nat.mul_add_lt_is_or (show x < 2 ^ 8 by omega) 1
  rw [Nat.lor_comm]
  norm_num at h
  exact h.symm

/-- Reads between `0x80` and `0x1FFF` come straight from low RAM and leave
the whole state unchanged. -/
theorem readU8_lowram {σ} (ops : AddrOps σ) (st : St2205u σ) (a : Nat)
    (h1 : 0x80 ≤ a) (h2 : a ≤ 0x1FFF) :
    St2205u.readU8 ops st a = (st.ram a, st) := by
  simp only [St2205u.readU8]
  rw [Nat.mod_eq_of_lt (show a < 65536 by omega)]
  rw [if_neg (by omega), if_pos (by omega)]
  simp only [St2205u.readRam]
  rw [Nat.mod_eq_of_lt (show a < 32768 by omega)]

/-- Writes between `0x80` and `0x1FFF` update a single low-RAM cell. -/
theorem writeU8_lowram {σ} (ops : AddrOps σ) (st : St2205u σ) (a v : Nat)
    (h1 : 0x80 ≤ a) (h2 : a ≤ 0x1FFF) :
    St2205u.writeU8 ops st a v =
      { st with ram := fun x => if x = a then v else st.ram x } := by
  simp only [St2205u.writeU8]
  rw [Nat.mod_eq_of_lt (show a < 65536 by omega)]
  rw [if_neg (by omega), if_pos (by omega)]
  simp only [St2205u.writeRam]
  rw [Nat.mod_eq_of_lt (show a < 32768 by omega)]

/-- `Core::pop_u8` reads the low-RAM cell `0x100 + (sp + 1) % 256` and only
bumps `sp`. -/
theorem popU8_char {σ} (ops : AddrOps σ) (core : Core σ) :
    Core.popU8 ops core =
      (core.addressSpace.ram (0x100 + (core.registers.sp + 1) % 256),
       { core with registers :=
          { core.registers with sp := (core.registers.sp + 1) % 256 } }) := by
  have hsp : (core.registers.sp + 1) % 256 < 256 := Nat.mod_lt _ (by norm_num)
  simp only [Core.popU8, Core.read8, Registers.fullSp]
  rw [lor_0x100 _ hsp]
  rw [readU8_lowram ops core.addressSpace (0x100 + (core.registers.sp + 1) % 256)
    (by omega) (by omega)]

/-- `Core::pop_u16` reads the two low-RAM cells above `sp` (low byte
first) and leaves everything but `sp` unchanged. -/
theorem popU16_char {σ} (ops : AddrOps σ) (core : Core σ) :
    Core.popU16 ops core =
      (core.addressSpace.ram (0x100 + (core.registers.sp + 1) % 256) |||
        core.addressSpace.ram (0x100 + (core.registers.sp + 2) % 256) <<< 8,
       { core with registers :=
          { core.registers with sp := (core.registers.sp + 2) % 256 } }) := by
  simp only [Core.popU16, popU8_char]
  rw [show ((core.registers.sp + 1) % 256 + 1) % 256 = (core.registers.sp + 2) % 256
    from by omega]

/-! ## Claim C2 — the return address loaded by RTS -/

/-- **C2** (corrected).  `instr::rts` pops a 16-bit little-endian value
from the stack (the bytes at `0x100 + (sp+1) % 256` and
`0x100 + (sp+2) % 256` of low RAM) and loads it into PC *unchanged*: the
source deliberately omits the `+1` of a hardware 65C02 because `jsr`
pushes the full next-instruction address.  The pop also leaves the whole
address space untouched and only bumps `sp` by two. -/
theorem C2_rts_return_address {σ} (ops : AddrOps σ) (core : Core σ) (inst : Instruction) :
    (rts ops core inst).fst.registers.pc =
      core.addressSpace.ram (0x100 + (core.registers.sp + 1) % 256) |||
        core.addressSpace.ram (0x100 + (core.registers.sp + 2) % 256) <<< 8 ∧
    (rts ops core inst).fst.addressSpace = core.addressSpace ∧
    (rts ops core inst).fst.registers.sp = (core.registers.sp + 2) % 256 ∧
    (rts ops core inst).snd = false := by
  simp only [rts, popU16_char]
  exact ⟨trivial, trivial, trivial, trivial⟩

/-- **C2, counterexample to the spec's wording.**  With `0x1234` stored
little-endian at stack slots `0x101`/`0x102` and `sp = 0`, RTS sets
`PC = 0x1234`, not the spec's popped-value-plus-one `0x1235`. -/
theorem C2_counterexample :
    (rts trivOps rtsDemoCore { opcode := .rts, addressingMode := .implied }).fst.registers.pc
        = 0x1234 ∧
    (0x1234 : Nat) ≠ 0x1234 + 1 := by
  exact ⟨by decide, by decide⟩

/-! ## Claim C7 — the decimal-mode extra cycle of ADC vs SBC -/

/-- A successful `read_operand_u8` never touches the cycle counter, the
flags or the CPU registers. -/
theorem readOperandU8_frame {σ} (ops : AddrOps σ) (core : Core σ) :
    ∀ (mode : AddressingMode) (rb : (Nat × Bool) × Core σ),
      mode.readOperandU8 ops core = some rb →
      rb.snd.cycles = core.cycles ∧ rb.snd.flags = core.flags ∧
      rb.snd.registers = core.registers := by
  intro mode rb h
  cases mode <;> simp only [AddressingMode.readOperandU8] at h <;>
    first
      | (obtain rfl := Option.some.inj h; exact ⟨rfl, rfl, rfl⟩)
      | exact Option.noConfusion h

/-- In decimal mode, a successful `instr::adc` returns the operand-read's
page-crossing flag and has consumed exactly one extra cycle. -/
theorem adc_char {σ} (ops : AddrOps σ) (core : Core σ) (inst : Instruction)
    (rb : (Nat × Bool) × Core σ)
    (h : inst.addressingMode.readOperandU8 ops core = some rb)
    (hD : core.flags.decimal = true) :
    ∃ c, adc ops core inst = some (c, rb.fst.snd) ∧ c.cycles = core.cycles + 1 := by
  obtain ⟨hc, hf, -⟩ := readOperandU8_frame ops core inst.addressingMode rb h
  simp only [adc, h, Option.bind_eq_bind, Option.some_bind]
  rw [hf, hD]
  simp only [if_true]
  refine ⟨_, rfl, ?_⟩
  show rb.snd.cycles + 1 = core.cycles + 1
  rw [hc]

/-- A successful `instr::sbc` never touches the cycle counter, decimal
mode or not. -/
theorem sbc_char {σ} (ops : AddrOps σ) (core : Core σ) (inst : Instruction)
    (rb : (Nat × Bool) × Core σ)
    (h : inst.addressingMode.readOperandU8 ops core = some rb) :
    ∃ c, sbc ops core inst = some (c, rb.fst.snd) ∧ c.cycles = core.cycles := by
  obtain ⟨hc, -, -⟩ := readOperandU8_frame ops core inst.addressingMode rb h
  simp only [sbc, h, Option.bind_eq_bind, Option.some_bind]
  refine ⟨_, rfl, ?_⟩
  show rb.snd.cycles = core.cycles
  exact hc

/-- The cycle tail of `Core::execute_instruction`: the handler's cycle
count plus the decoded base cycles plus the page-boundary extra. -/
theorem executeWith_cycles {σ}
    (opFn : AddrOps σ → Core σ → Instruction → Option (Core σ × Bool))
    (ops : AddrOps σ) (dins : DecodedInstruction) (core c : Core σ) (bc : Bool)
    (h : opFn ops core dins.instruction = some (c, bc)) :
    (executeWith opFn ops dins core).map Core.cycles =
      some (c.cycles + dins.cycles +
        (if bc && dins.extraPageBoundaryCycle then 1 else 0)) := by
  simp only [executeWith, h, Option.bind_eq_bind, Option.some_bind]
  cases hb : bc && dins.extraPageBoundaryCycle <;> simp [hb]

/-- **C7** (corrected).  With the decimal flag set, executing ADC costs
the decoded base cycles plus one extra cycle (plus the page-boundary
extra), while executing SBC costs only the decoded base cycles (plus the
page-boundary extra): the decimal path of `instr::sbc` adds no cycle. -/
theorem C7_decimal_extra_cycle {σ} (ops : AddrOps σ) (core : Core σ)
    (dinsA dinsS : DecodedInstruction) (rbA rbS : (Nat × Bool) × Core σ)
    (hD : core.flags.decimal = true)
    (hA : dinsA.instruction.addressingMode.readOperandU8 ops core = some rbA)
    (hS : dinsS.instruction.addressingMode.readOperandU8 ops core = some rbS) :
    (executeWith adc ops dinsA core).map Core.cycles =
      some (core.cycles + 1 + dinsA.cycles +
        (if rbA.fst.snd && dinsA.extraPageBoundaryCycle then 1 else 0)) ∧
    (executeWith sbc ops dinsS core).map Core.cycles =
      some (core.cycles + dinsS.cycles +
        (if rbS.fst.snd && dinsS.extraPageBoundaryCycle then 1 else 0)) := by
  obtain ⟨cA, hA2, hcA⟩ := adc_char ops core dinsA.instruction rbA hA hD
  obtain ⟨cS, hS2, hcS⟩ := sbc_char ops core dinsS.instruction rbS hS
  constructor
  · rw [executeWith_cycles adc ops dinsA core cA rbA.fst.snd hA2, hcA]
  · rw [executeWith_cycles sbc ops dinsS core cS rbS.fst.snd hS2, hcS]

/-- **C7, witness.**  On a fresh core with the decimal flag set, an
immediate-mode ADC decoded at 2 base cycles costs 3 cycles while the
matching SBC costs 2. -/
theorem C7_decimal_extra_cycle_witness :
    (executeWith adc trivOps
        { instruction := { opcode := .adc, addressingMode := .immediate 7 }
          cycles := 2, extraPageBoundaryCycle := false } decimalDemoCore).map Core.cycles
      = some 3 ∧
    (executeWith sbc trivOps
        { instruction := { opcode := .sbc, addressingMode := .immediate 7 }
          cycles := 2, extraPageBoundaryCycle := false } decimalDemoCore).map Core.cycles
      = some 2 := by
  have h := C7_decimal_extra_cycle trivOps decimalDemoCore
    { instruction := { opcode := .adc, addressingMode := .immediate 7 }
      cycles := 2, extraPageBoundaryCycle := false }
    { instruction := { opcode := .sbc, addressingMode := .immediate 7 }
      cycles := 2, extraPageBoundaryCycle := false }
    ((7, false), decimalDemoCore) ((7, false), decimalDemoCore) rfl rfl rfl
  exact h

/-- **C7, counterexample to the spec's wording.**  A 2-cycle decimal-mode
SBC finishes in 2 cycles, not the 3 the spec's symmetric reading would
give. -/
theorem C7_counterexample :
    (executeWith sbc trivOps
        { instruction := { opcode := .sbc, addressingMode := .immediate 5 }
          cycles := 2, extraPageBoundaryCycle := false } decimalDemoCore).map Core.cycles
      = some 2 ∧
    (2 : Nat) ≠ 2 + 1 := by
  exact ⟨by decide, by decide⟩

/-! ## Claim C9 — DMA transfer frame effects -/

theorem land_127 (n : Nat) : n &&& 127 = n % 128 := by
  have h := land_two_pow_sub_one n 7; norm_num at h; exact h

/-- The general high-byte extraction `(v & 0xFF00) >> 8 = v / 256 % 256`. -/
theorem land_ff00_shr8 (v : Nat) : (v &&& 0xFF00) >>> 8 = v / 256 % 256 := by
  have hsplit : v = 256 * (v / 256) + v % 256 := by omega
  have hm : (0xFF00 : Nat) = 256 * 0xFF + 0 := by norm_num
  have h1 : v &&& 0xFF00 = 256 * (v / 256 &&& 0xFF) + (v % 256 &&& 0) := by
    rw [hm]
    calc v &&& (256 * 0xFF + 0) = (256 * (v / 256) + v % 256) &&& (256 * 0xFF + 0) := by
          rw [← hsplit]
      _ = 256 * (v / 256 &&& 0xFF) + (v % 256 &&& 0) :=
          byte_split_and _ _ _ _ (by omega) (by norm_num)
  rw [h1, land_255, Nat.and_zero, shiftRight8_eq]
  omega

/-- The bytes and masks of `U16Register::set_u16` in general. -/
theorem setU16_get (r : U16Register) (v : Nat) :
    (r.setU16 v).l.get = v % 256 &&& r.l.mask ∧
    (r.setU16 v).h.get = v / 256 % 256 &&& r.h.mask ∧
    (r.setU16 v).l.mask = r.l.mask ∧
    (r.setU16 v).h.mask = r.h.mask := by
  refine ⟨?_, ?_, rfl, rfl⟩
  · show v &&& 0x00FF &&& r.l.mask = v % 256 &&& r.l.mask
    rw [land_255]
  · show (v &&& 0xFF00) >>> 8 &&& r.h.mask = v / 256 % 256 &&& r.h.mask
    rw [land_ff00_shr8]

/-- The DMA pointer bump `set_u16 (((u16 | 0x8000) + 1) % 0x10000)` on a
DPTR-masked register increments the pointer within its 15 writable
bits. -/
theorem dptr_bump (r : U16Register)
    (hlm : r.l.mask = 0xFF) (hhm : r.h.mask = 0x7F)
    (hlv : r.l.val < 256) (hhv : r.h.val < 128) :
    (r.setU16 (((r.u16 ||| (1 <<< 15)) + 1) % 0x10000)).u16 = (r.u16 + 1) % 32768 ∧
    (r.setU16 (((r.u16 ||| (1 <<< 15)) + 1) % 0x10000)).l.mask = 0xFF ∧
    (r.setU16 (((r.u16 ||| (1 <<< 15)) + 1) % 0x10000)).h.mask = 0x7F ∧
    (r.setU16 (((r.u16 ||| (1 <<< 15)) + 1) % 0x10000)).l.val < 256 ∧
    (r.setU16 (((r.u16 ||| (1 <<< 15)) + 1) % 0x10000)).h.val < 128 := by
  have hu : r.u16 = r.l.val + 256 * r.h.val := by
    rw [U16Register.u16, U8Register.get, U8Register.get, lor_shiftLeft8 _ _ hlv]
  have hb : r.u16 < 32768 := by omega
  have hor : r.u16 ||| (1 <<< 15) = r.u16 + 32768 := by
    have h := Nat.mul_add_lt_is_or (show r.u16 < 2 ^ 15 by omega) 1
    norm_num at h
    rw [(by decide : (1 <<< 15 : Nat) = 32768), Nat.lor_comm, ← h]
    omega
  rw [hor]
  obtain ⟨hl, hh, hlm2, hhm2⟩ := setU16_get r ((r.u16 + 32768 + 1) % 0x10000)
  rw [hlm] at hl
  rw [hhm] at hh
  have hl' : (r.setU16 ((r.u16 + 32768 + 1) % 0x10000)).l.val = (r.u16 + 32768 + 1) % 0x10000 % 256 := by
    rw [show (r.setU16 ((r.u16 + 32768 + 1) % 0x10000)).l.val
        = (r.setU16 ((r.u16 + 32768 + 1) % 0x10000)).l.get from rfl, hl, land_255]
    omega
  have hh' : (r.setU16 ((r.u16 + 32768 + 1) % 0x10000)).h.val
      = (r.u16 + 32768 + 1) % 0x10000 / 256 % 128 := by
    rw [show (r.setU16 ((r.u16 + 32768 + 1) % 0x10000)).h.val
        = (r.setU16 ((r.u16 + 32768 + 1) % 0x10000)).h.get from rfl, hh, land_127]
    omega
  refine ⟨?_, by rw [hlm2, hlm], by rw [hhm2, hhm], by rw [hl']; omega, by rw [hh']; omega⟩
  rw [U16Register.u16, U8Register.get, U8Register.get,
    lor_shiftLeft8 _ _ (by rw [hl']; omega), hl', hh']
  omega

/-- `read_u8` of the MCU address space can only change the machine address
space component. -/
theorem readU8_preserves {σ} (ops : AddrOps σ) (st : St2205u σ) (a : Nat) :
    (St2205u.readU8 ops st a).snd.ram = st.ram ∧
    (St2205u.readU8 ops st a).snd.banks = st.banks ∧
    (St2205u.readU8 ops st a).snd.dma = st.dma ∧
    (St2205u.readU8 ops st a).snd.gpio = st.gpio ∧
    (St2205u.readU8 ops st a).snd.baseTimer = st.baseTimer ∧
    (St2205u.readU8 ops st a).snd.timer = st.timer ∧
    (St2205u.readU8 ops st a).snd.interrupt = st.interrupt := by
  simp only [St2205u.readU8]
  split_ifs <;> exact ⟨rfl, rfl, rfl, rfl, rfl, rfl, rfl⟩

/-- The banked-window write can only change RAM or the machine address
space. -/
theorem writeBanked_preserves {σ} (ops : AddrOps σ) (st : St2205u σ) (a v : Nat) :
    (St2205u.writeBanked ops st a v).banks = st.banks ∧
    (St2205u.writeBanked ops st a v).dma = st.dma ∧
    (St2205u.writeBanked ops st a v).gpio = st.gpio ∧
    (St2205u.writeBanked ops st a v).baseTimer = st.baseTimer ∧
    (St2205u.writeBanked ops st a v).timer = st.timer ∧
    (St2205u.writeBanked ops st a v).interrupt = st.interrupt := by
  simp only [St2205u.writeBanked]
  split_ifs <;> exact ⟨rfl, rfl, rfl, rfl, rfl, rfl⟩

/-- The DMA source-pointer update: control registers and the destination
pointer are untouched, the source pointer follows the source mode. -/
theorem dmaBumpSrc_char {σ} (s : St2205u σ) (p : Nat) :
    (dmaBumpSrc s p).dma.dmod = s.dma.dmod ∧
    (dmaBumpSrc s p).dma.dsel = s.dma.dsel ∧
    (dmaBumpSrc s p).dma.dcnt = s.dma.dcnt ∧
    (dmaBumpSrc s p).dma.srcDbkr = s.dma.srcDbkr ∧
    (dmaBumpSrc s p).dma.destDbkr = s.dma.destDbkr ∧
    (dmaBumpSrc s p).dma.srcDptr =
      (match s.dma.getSrcMode with
        | DmaMode.Fixed => s.dma.srcDptr
        | _ => s.dma.srcDptr.setU16 ((p + 1) % 0x10000)) ∧
    (dmaBumpSrc s p).dma.destDptr = s.dma.destDptr := by
  simp only [dmaBumpSrc]
  cases s.dma.getSrcMode <;> exact ⟨rfl, rfl, rfl, rfl, rfl, rfl, rfl⟩

/-- The DMA destination-pointer update, mirror image of
`dmaBumpSrc_char`. -/
theorem dmaBumpDest_char {σ} (s : St2205u σ) (p : Nat) :
    (dmaBumpDest s p).dma.dmod = s.dma.dmod ∧
    (dmaBumpDest s p).dma.dsel = s.dma.dsel ∧
    (dmaBumpDest s p).dma.dcnt = s.dma.dcnt ∧
    (dmaBumpDest s p).dma.srcDbkr = s.dma.srcDbkr ∧
    (dmaBumpDest s p).dma.destDbkr = s.dma.destDbkr ∧
    (dmaBumpDest s p).dma.srcDptr = s.dma.srcDptr ∧
    (dmaBumpDest s p).dma.destDptr =
      (match s.dma.getDestMode with
        | DmaMode.Fixed => s.dma.destDptr
        | _ => s.dma.destDptr.setU16 ((p + 1) % 0x10000)) := by
  simp only [dmaBumpDest]
  cases s.dma.getDestMode <;> exact ⟨rfl, rfl, rfl, rfl, rfl, rfl, rfl⟩

/-- One DMA iteration: the control registers are untouched and each
pointer either stays fixed or is bumped through the 16-bit wraparound of
`(ptr | 0x8000) + 1`, per its DMOD mode. -/
theorem dmaIter_dma {σ} (ops : AddrOps σ) (st : St2205u σ) :
    (dmaIter ops st).dma.dmod = st.dma.dmod ∧
    (dmaIter ops st).dma.dsel = st.dma.dsel ∧
    (dmaIter ops st).dma.dcnt = st.dma.dcnt ∧
    (dmaIter ops st).dma.srcDbkr = st.dma.srcDbkr ∧
    (dmaIter ops st).dma.destDbkr = st.dma.destDbkr ∧
    (dmaIter ops st).dma.srcDptr =
      (match st.dma.getSrcMode with
        | DmaMode.Fixed => st.dma.srcDptr
        | _ => st.dma.srcDptr.setU16 (((st.dma.srcDptr.u16 ||| (1 <<< 15)) + 1) % 0x10000)) ∧
    (dmaIter ops st).dma.destDptr =
      (match st.dma.getDestMode with
        | DmaMode.Fixed => st.dma.destDptr
        | _ => st.dma.destDptr.setU16 (((st.dma.destDptr.u16 ||| (1 <<< 15)) + 1) % 0x10000)) := by
  have h2 : (dmaIterRead ops st).snd.dma = st.dma := (readU8_preserves ops _ _).2.2.1
  have h4 : ∀ ptr byte, (dmaIterWrite ops (dmaIterRead ops st).snd ptr byte).dma = st.dma :=
    fun ptr byte => ((writeBanked_preserves ops _ ptr byte).2.1).trans h2
  simp only [dmaIter, h2]
  obtain ⟨a1, a2, a3, a4, a5, a6, a7⟩ :=
    dmaBumpSrc_char (dmaIterWrite ops (dmaIterRead ops st).snd
      (st.dma.destDptr.u16 ||| (1 <<< 15)) (dmaIterRead ops st).fst)
      (st.dma.srcDptr.u16 ||| (1 <<< 15))
  obtain ⟨b1, b2, b3, b4, b5, b6, b7⟩ :=
    dmaBumpDest_char (dmaBumpSrc (dmaIterWrite ops (dmaIterRead ops st).snd
      (st.dma.destDptr.u16 ||| (1 <<< 15)) (dmaIterRead ops st).fst)
      (st.dma.srcDptr.u16 ||| (1 <<< 15)))
      (st.dma.destDptr.u16 ||| (1 <<< 15))
  rw [h4] at a1 a2 a3 a4 a5 a6 a7
  rw [a1] at b1
  rw [a2] at b2
  rw [a3] at b3
  rw [a4] at b4
  rw [a5] at b5
  rw [a6] at b6
  have hgd : (dmaBumpSrc (dmaIterWrite ops (dmaIterRead ops st).snd
      (st.dma.destDptr.u16 ||| (1 <<< 15)) (dmaIterRead ops st).fst)
      (st.dma.srcDptr.u16 ||| (1 <<< 15))).dma.getDestMode = st.dma.getDestMode := by
    rw [DmaState.getDestMode, DmaState.getDestMode, a1]
  rw [hgd, a7] at b7
  exact ⟨b1, b2, b3, b4, b5, b6, b7⟩

/-- A DPTR-masked register with in-range bytes holds a value below
`0x8000`. -/
theorem u16_lt (r : U16Register) (hlv : r.l.val < 256) (hhv : r.h.val < 128) :
    r.u16 < 32768 := by
  rw [U16Register.u16, U8Register.get, U8Register.get, lor_shiftLeft8 _ _ hlv]
  omega

/-- The `for` loop of `execute_dma`, run `n` times: DMA control registers
are untouched; a pointer in Fixed mode is untouched; a pointer in
Continue or Reload mode advances by `n` within its 15 writable bits. -/
theorem dmaLoop_dma {σ} (ops : AddrOps σ) :
    ∀ (n : Nat) (st : St2205u σ),
      st.dma.srcDptr.l.mask = 0xFF → st.dma.srcDptr.h.mask = 0x7F →
      st.dma.srcDptr.l.val < 256 → st.dma.srcDptr.h.val < 128 →
      st.dma.destDptr.l.mask = 0xFF → st.dma.destDptr.h.mask = 0x7F →
      st.dma.destDptr.l.val < 256 → st.dma.destDptr.h.val < 128 →
      (dmaLoop ops n st).dma.dmod = st.dma.dmod ∧
      (dmaLoop ops n st).dma.dsel = st.dma.dsel ∧
      (dmaLoop ops n st).dma.dcnt = st.dma.dcnt ∧
      (dmaLoop ops n st).dma.srcDbkr = st.dma.srcDbkr ∧
      (dmaLoop ops n st).dma.destDbkr = st.dma.destDbkr ∧
      (st.dma.getSrcMode = DmaMode.Fixed →
         (dmaLoop ops n st).dma.srcDptr = st.dma.srcDptr) ∧
      (st.dma.getSrcMode ≠ DmaMode.Fixed →
         (dmaLoop ops n st).dma.srcDptr.u16 = (st.dma.srcDptr.u16 + n) % 32768) ∧
      (st.dma.getDestMode = DmaMode.Fixed →
         (dmaLoop ops n st).dma.destDptr = st.dma.destDptr) ∧
      (st.dma.getDestMode ≠ DmaMode.Fixed →
         (dmaLoop ops n st).dma.destDptr.u16 = (st.dma.destDptr.u16 + n) % 32768) := by
  intro n
  induction n with
  | zero =>
    intro st h1 h2 h3 h4 h5 h6 h7 h8
    have hs := u16_lt st.dma.srcDptr h3 h4
    have hd := u16_lt st.dma.destDptr h7 h8
    refine ⟨rfl, rfl, rfl, rfl, rfl, fun _ => rfl, fun _ => ?_, fun _ => rfl, fun _ => ?_⟩
    · show st.dma.srcDptr.u16 = (st.dma.srcDptr.u16 + 0) % 32768
      omega
    · show st.dma.destDptr.u16 = (st.dma.destDptr.u16 + 0) % 32768
      omega
  | succ n ih =>
    intro st h1 h2 h3 h4 h5 h6 h7 h8
    obtain ⟨i1, i2, i3, i4, i5, i6, i7⟩ := dmaIter_dma ops st
    have hms : (dmaIter ops st).dma.getSrcMode = st.dma.getSrcMode := by
      rw [DmaState.getSrcMode, DmaState.getSrcMode, i1]
    have hmd : (dmaIter ops st).dma.getDestMode = st.dma.getDestMode := by
      rw [DmaState.getDestMode, DmaState.getDestMode, i1]
    have hsrc : ((dmaIter ops st).dma.srcDptr.l.mask = 0xFF ∧
        (dmaIter ops st).dma.srcDptr.h.mask = 0x7F ∧
        (dmaIter ops st).dma.srcDptr.l.val < 256 ∧
        (dmaIter ops st).dma.srcDptr.h.val < 128) ∧
        (st.dma.getSrcMode = DmaMode.Fixed →
          (dmaIter ops st).dma.srcDptr = st.dma.srcDptr) ∧
        (st.dma.getSrcMode ≠ DmaMode.Fixed →
          (dmaIter ops st).dma.srcDptr.u16 = (st.dma.srcDptr.u16 + 1) % 32768) := by
      rw [i6]
      cases st.dma.getSrcMode
      case Fixed => exact ⟨⟨h1, h2, h3, h4⟩, fun _ => rfl, fun hne => absurd rfl hne⟩
      case Continue =>
        obtain ⟨d1, d2, d3, d4, d5⟩ := dptr_bump st.dma.srcDptr h1 h2 h3 h4
        exact ⟨⟨d2, d3, d4, d5⟩, fun hf => DmaMode.noConfusion hf, fun _ => d1⟩
      case Reload =>
        obtain ⟨d1, d2, d3, d4, d5⟩ := dptr_bump st.dma.srcDptr h1 h2 h3 h4
        exact ⟨⟨d2, d3, d4, d5⟩, fun hf => DmaMode.noConfusion hf, fun _ => d1⟩
    have hdest : ((dmaIter ops st).dma.destDptr.l.mask = 0xFF ∧
        (dmaIter ops st).dma.destDptr.h.mask = 0x7F ∧
        (dmaIter ops st).dma.destDptr.l.val < 256 ∧
        (dmaIter ops st).dma.destDptr.h.val < 128) ∧
        (st.dma.getDestMode = DmaMode.Fixed →
          (dmaIter ops st).dma.destDptr = st.dma.destDptr) ∧
        (st.dma.getDestMode ≠ DmaMode.Fixed →
          (dmaIter ops st).dma.destDptr.u16 = (st.dma.destDptr.u16 + 1) % 32768) := by
      rw [i7]
      cases st.dma.getDestMode
      case Fixed => exact ⟨⟨h5, h6, h7, h8⟩, fun _ => rfl, fun hne => absurd rfl hne⟩
      case Continue =>
        obtain ⟨d1, d2, d3, d4, d5⟩ := dptr_bump st.dma.destDptr h5 h6 h7 h8
        exact ⟨⟨d2, d3, d4, d5⟩, fun hf => DmaMode.noConfusion hf, fun _ => d1⟩
      case Reload =>
        obtain ⟨d1, d2, d3, d4, d5⟩ := dptr_bump st.dma.destDptr h5 h6 h7 h8
        exact ⟨⟨d2, d3, d4, d5⟩, fun hf => DmaMode.noConfusion hf, fun _ => d1⟩
    obtain ⟨l1, l2, l3, l4, l5, l6, l7, l8, l9⟩ := ih (dmaIter ops st)
      hsrc.1.1 hsrc.1.2.1 hsrc.1.2.2.1 hsrc.1.2.2.2
      hdest.1.1 hdest.1.2.1 hdest.1.2.2.1 hdest.1.2.2.2
    have hstep : dmaLoop ops (n + 1) st = dmaLoop ops n (dmaIter ops st) := rfl
    refine ⟨?_, ?_, ?_, ?_, ?_, ?_, ?_, ?_, ?_⟩
    · rw [hstep, l1, i1]
    · rw [hstep, l2, i2]
    · rw [hstep, l3, i3]
    · rw [hstep, l4, i4]
    · rw [hstep, l5, i5]
    · intro hf
      rw [hstep, l6 (hms.trans hf), hsrc.2.1 hf]
    · intro hne
      have hne' : (dmaIter ops st).dma.getSrcMode ≠ DmaMode.Fixed := by
        rw [hms]; exact hne
      rw [hstep, l7 hne', hsrc.2.2 hne]
      omega
    · intro hf
      rw [hstep, l8 (hmd.trans hf), hdest.2.1 hf]
    · intro hne
      have hne' : (dmaIter ops st).dma.getDestMode ≠ DmaMode.Fixed := by
        rw [hmd]; exact hne
      rw [hstep, l9 hne', hdest.2.2 hne]
      omega

/-- The source-pointer restore: control registers and the destination
pointer are untouched, the source pointer is restored exactly when the
source mode is Reload. -/
theorem dmaReloadSrc_char {σ} (s : St2205u σ) (orig : U16Register) :
    (dmaReloadSrc s orig).dma.dmod = s.dma.dmod ∧
    (dmaReloadSrc s orig).dma.dsel = s.dma.dsel ∧
    (dmaReloadSrc s orig).dma.dcnt = s.dma.dcnt ∧
    (dmaReloadSrc s orig).dma.srcDbkr = s.dma.srcDbkr ∧
    (dmaReloadSrc s orig).dma.destDbkr = s.dma.destDbkr ∧
    (dmaReloadSrc s orig).dma.srcDptr =
      (match s.dma.getSrcMode with
        | DmaMode.Reload => orig
        | _ => s.dma.srcDptr) ∧
    (dmaReloadSrc s orig).dma.destDptr = s.dma.destDptr := by
  simp only [dmaReloadSrc]
  cases s.dma.getSrcMode <;> exact ⟨rfl, rfl, rfl, rfl, rfl, rfl, rfl⟩

/-- The destination-pointer restore, mirror image of
`dmaReloadSrc_char`. -/
theorem dmaReloadDest_char {σ} (s : St2205u σ) (orig : U16Register) :
    (dmaReloadDest s orig).dma.dmod = s.dma.dmod ∧
    (dmaReloadDest s orig).dma.dsel = s.dma.dsel ∧
    (dmaReloadDest s orig).dma.dcnt = s.dma.dcnt ∧
    (dmaReloadDest s orig).dma.srcDbkr = s.dma.srcDbkr ∧
    (dmaReloadDest s orig).dma.destDbkr = s.dma.destDbkr ∧
    (dmaReloadDest s orig).dma.srcDptr = s.dma.srcDptr ∧
    (dmaReloadDest s orig).dma.destDptr =
      (match s.dma.getDestMode with
        | DmaMode.Reload => orig
        | _ => s.dma.destDptr) := by
  simp only [dmaReloadDest]
  cases s.dma.getDestMode <;> exact ⟨rfl, rfl, rfl, rfl, rfl, rfl, rfl⟩

/-- `execute_dma` on a state with well-formed DPTR registers: DRR is
restored, a pointer whose mode is Reload or Fixed ends where it started,
and a Continue-mode pointer advances by the transfer count within its 15
writable bits. -/
theorem executeDma_char {σ} (ops : AddrOps σ) (st : St2205u σ)
    (h1 : st.dma.srcDptr.l.mask = 0xFF) (h2 : st.dma.srcDptr.h.mask = 0x7F)
    (h3 : st.dma.srcDptr.l.val < 256) (h4 : st.dma.srcDptr.h.val < 128)
    (h5 : st.dma.destDptr.l.mask = 0xFF) (h6 : st.dma.destDptr.h.mask = 0x7F)
    (h7 : st.dma.destDptr.l.val < 256) (h8 : st.dma.destDptr.h.val < 128) :
    (executeDma ops st).banks.drr = st.banks.drr ∧
    (st.dma.getSrcMode ≠ DmaMode.Continue →
      (executeDma ops st).dma.srcDptr = st.dma.srcDptr) ∧
    (st.dma.getSrcMode = DmaMode.Continue →
      (executeDma ops st).dma.srcDptr.u16 =
        (st.dma.srcDptr.u16 + st.dma.dcnt.u16) % 32768) ∧
    (st.dma.getDestMode ≠ DmaMode.Continue →
      (executeDma ops st).dma.destDptr = st.dma.destDptr) ∧
    (st.dma.getDestMode = DmaMode.Continue →
      (executeDma ops st).dma.destDptr.u16 =
        (st.dma.destDptr.u16 + st.dma.dcnt.u16) % 32768) := by
  obtain ⟨l1, l2, l3, l4, l5, l6, l7, l8, l9⟩ :=
    dmaLoop_dma ops st.dma.dcnt.u16 st h1 h2 h3 h4 h5 h6 h7 h8
  obtain ⟨r1, -, -, -, -, r6, r7⟩ :=
    dmaReloadSrc_char (dmaLoop ops st.dma.dcnt.u16 st) st.dma.srcDptr
  obtain ⟨-, -, -, -, -, s6, s7⟩ :=
    dmaReloadDest_char (dmaReloadSrc (dmaLoop ops st.dma.dcnt.u16 st) st.dma.srcDptr)
      st.dma.destDptr
  have hmsL : (dmaLoop ops st.dma.dcnt.u16 st).dma.getSrcMode = st.dma.getSrcMode := by
    rw [DmaState.getSrcMode, DmaState.getSrcMode, l1]
  have hmdS : (dmaReloadSrc (dmaLoop ops st.dma.dcnt.u16 st) st.dma.srcDptr).dma.getDestMode
      = st.dma.getDestMode := by
    rw [DmaState.getDestMode, DmaState.getDestMode, r1, l1]
  refine ⟨rfl, ?_, ?_, ?_, ?_⟩
  · intro hne
    show (dmaReloadDest (dmaReloadSrc (dmaLoop ops st.dma.dcnt.u16 st) st.dma.srcDptr)
        st.dma.destDptr).dma.srcDptr = st.dma.srcDptr
    rw [s6, r6, hmsL]
    cases hmode : st.dma.getSrcMode
    case Continue => exact absurd hmode hne
    case Reload => rfl
    case Fixed => exact l6 hmode
  · intro hC
    have hne : st.dma.getSrcMode ≠ DmaMode.Fixed := by
      rw [hC]; exact fun h => DmaMode.noConfusion h
    show (dmaReloadDest (dmaReloadSrc (dmaLoop ops st.dma.dcnt.u16 st) st.dma.srcDptr)
        st.dma.destDptr).dma.srcDptr.u16 = _
    rw [s6, r6, hmsL, hC]
    exact l7 hne
  · intro hne
    show (dmaReloadDest (dmaReloadSrc (dmaLoop ops st.dma.dcnt.u16 st) st.dma.srcDptr)
        st.dma.destDptr).dma.destDptr = st.dma.destDptr
    rw [s7, hmdS, r7]
    cases hmode : st.dma.getDestMode
    case Continue => exact absurd hmode hne
    case Reload => rfl
    case Fixed => exact l8 hmode
  · intro hC
    have hne : st.dma.getDestMode ≠ DmaMode.Fixed := by
      rw [hC]; exact fun h => DmaMode.noConfusion h
    show (dmaReloadDest (dmaReloadSrc (dmaLoop ops st.dma.dcnt.u16 st) st.dma.srcDptr)
        st.dma.destDptr).dma.destDptr.u16 = _
    rw [s7, hmdS, hC, r7]
    exact l9 hne

/-- **C9** (confirmed).  A DMA transfer triggered by writing the high
count byte moves `N = dcnt` bytes (`dcnt` as masked after that write) and
afterwards: DRR equals its pre-transfer value; each of the source and
destination pointers is unchanged when its DMOD mode is Reload or Fixed,
and equals its pre-transfer value plus `N` within the pointer's 15
writable bits when its mode is Continue. -/
theorem C9_dma_transfer {σ} (ops : AddrOps σ) (st : St2205u σ) (val : Nat)
    (h1 : st.dma.srcDptr.l.mask = 0xFF) (h2 : st.dma.srcDptr.h.mask = 0x7F)
    (h3 : st.dma.srcDptr.l.val < 256) (h4 : st.dma.srcDptr.h.val < 128)
    (h5 : st.dma.destDptr.l.mask = 0xFF) (h6 : st.dma.destDptr.h.mask = 0x7F)
    (h7 : st.dma.destDptr.l.val < 256) (h8 : st.dma.destDptr.h.val < 128) :
    (write_dcnth ops st val).banks.drr = st.banks.drr ∧
    (st.dma.getSrcMode ≠ DmaMode.Continue →
      (write_dcnth ops st val).dma.srcDptr = st.dma.srcDptr) ∧
    (st.dma.getSrcMode = DmaMode.Continue →
      (write_dcnth ops st val).dma.srcDptr.u16 =
        (st.dma.srcDptr.u16 + (st.dma.dcnt.setH val).u16) % 32768) ∧
    (st.dma.getDestMode ≠ DmaMode.Continue →
      (write_dcnth ops st val).dma.destDptr = st.dma.destDptr) ∧
    (st.dma.getDestMode = DmaMode.Continue →
      (write_dcnth ops st val).dma.destDptr.u16 =
        (st.dma.destDptr.u16 + (st.dma.dcnt.setH val).u16) % 32768) :=
  executeDma_char ops
    { st with dma := { st.dma with dcnt := st.dma.dcnt.setH val } }
    h1 h2 h3 h4 h5 h6 h7 h8

/-- **C9, witness.**  On the power-on MCU state (both modes Continue, both
pointers 0) a transfer with high count byte 1 moves 256 bytes and leaves
both pointers at 256, with DRR restored. -/
theorem C9_dma_transfer_witness :
    (write_dcnth trivOps (St2205u.new () 16000000) 1).banks.drr
      = (St2205u.new () 16000000).banks.drr ∧
    (write_dcnth trivOps (St2205u.new () 16000000) 1).dma.srcDptr.u16 = 256 ∧
    (write_dcnth trivOps (St2205u.new () 16000000) 1).dma.destDptr.u16 = 256 := by
  obtain ⟨w1, -, w3, -, w5⟩ := C9_dma_transfer trivOps (St2205u.new () 16000000) 1
    (by decide) (by decide) (by decide) (by decide)
    (by decide) (by decide) (by decide) (by decide)
  refine ⟨w1, ?_, ?_⟩
  · rw [w3 (by decide)]
    decide
  · rw [w5 (by decide)]
    decide

/-! ## Claim C10 — the interrupt-dispatch frame of `Mcu::step` -/

/-- When the machine address space's reads are pure (as the handheld's
are: flash, OTP and LCD reads never mutate), `read_u8` leaves the MCU
state untouched. -/
theorem readU8_pure {σ} (ops : AddrOps σ) (hpure : ∀ s a, (ops.read s a).snd = s)
    (st : St2205u σ) (a : Nat) : (St2205u.readU8 ops st a).snd = st := by
  simp only [St2205u.readU8]
  split_ifs <;> first
    | rfl
    | rw [hpure]

/-- Under pure machine reads, `read_u16_le` leaves the MCU state
untouched. -/
theorem readU16Le_pure {σ} (ops : AddrOps σ) (hpure : ∀ s a, (ops.read s a).snd = s)
    (st : St2205u σ) (a : Nat) : (St2205u.readU16Le ops st a).snd = st := by
  simp only [St2205u.readU16Le]
  rw [readU8_pure ops hpure st a, readU8_pure ops hpure st (a + 1)]

/-- `Core::push_u8` writes one low-RAM stack cell and decrements `sp`. -/
theorem pushU8_char {σ} (ops : AddrOps σ) (core : Core σ) (v : Nat)
    (hsp : core.registers.sp < 256) :
    Core.pushU8 ops core v =
      { core with
        addressSpace := { core.addressSpace with ram := fun x =>
          if x = 0x100 + core.registers.sp then v else core.addressSpace.ram x }
        registers := { core.registers with
          sp := (core.registers.sp + 255) % 256 } } := by
  simp only [Core.pushU8, Registers.fullSp]
  rw [lor_0x100 _ hsp]
  rw [writeU8_lowram ops core.addressSpace (0x100 + core.registers.sp) v
    (by omega) (by omega)]

/-- `Core::push_u16` writes the high byte at `sp`, the low byte one slot
below, and decrements `sp` twice. -/
theorem pushU16_char {σ} (ops : AddrOps σ) (core : Core σ) (v : Nat)
    (hsp : core.registers.sp < 256) :
    Core.pushU16 ops core v =
      { core with
        addressSpace := { core.addressSpace with ram := fun x =>
          (if x = 0x100 + (core.registers.sp + 255) % 256 then v &&& 0xFF
           else if x = 0x100 + core.registers.sp then (v &&& 0xFF00) >>> 8
           else core.addressSpace.ram x) }
        registers := { core.registers with
          sp := ((core.registers.sp + 255) % 256 + 255) % 256 } } := by
  simp only [Core.pushU16]
  rw [pushU8_char ops core ((v &&& 0xFF00) >>> 8) hsp]
  rw [pushU8_char ops _ (v &&& 0xFF) (Nat.mod_lt _ (by norm_num))]

/-- The vector-entry tail under pure machine reads: it pushes three bytes
onto the low-RAM stack, decrements `sp` three times, and leaves every
other component (flags included) alone. -/
theorem interruptEnter_char {σ} (ops : AddrOps σ)
    (hpure : ∀ s a, (ops.read s a).snd = s) (c : Core σ) (vec : Nat)
    (hsp : c.registers.sp < 256) :
    (interruptEnter ops c vec).registers.a = c.registers.a ∧
    (interruptEnter ops c vec).registers.x = c.registers.x ∧
    (interruptEnter ops c vec).registers.y = c.registers.y ∧
    (interruptEnter ops c vec).flags = c.flags ∧
    (interruptEnter ops c vec).cycles = c.cycles ∧
    (interruptEnter ops c vec).addressSpace.interrupt = c.addressSpace.interrupt ∧
    (interruptEnter ops c vec).addressSpace.banks = c.addressSpace.banks ∧
    (interruptEnter ops c vec).addressSpace.dma = c.addressSpace.dma ∧
    (interruptEnter ops c vec).addressSpace.gpio = c.addressSpace.gpio ∧
    (interruptEnter ops c vec).addressSpace.baseTimer = c.addressSpace.baseTimer ∧
    (interruptEnter ops c vec).addressSpace.timer = c.addressSpace.timer ∧
    (interruptEnter ops c vec).addressSpace.machineAddrSpace =
      c.addressSpace.machineAddrSpace ∧
    (interruptEnter ops c vec).registers.sp =
      (((c.registers.sp + 255) % 256 + 255) % 256 + 255) % 256 ∧
    (interruptEnter ops c vec).addressSpace.ram = fun x =>
      (if x = 0x100 + ((c.registers.sp + 255) % 256 + 255) % 256 then c.flags.toU8
       else if x = 0x100 + (c.registers.sp + 255) % 256 then c.registers.pc &&& 0xFF
       else if x = 0x100 + c.registers.sp then (c.registers.pc &&& 0xFF00) >>> 8
       else c.addressSpace.ram x) := by
  simp only [interruptEnter]
  rw [pushU16_char ops c c.registers.pc hsp]
  rw [pushU8_char ops _ _ (Nat.mod_lt _ (by norm_num))]
  rw [readU16Le_pure ops hpure]
  exact ⟨rfl, rfl, rfl, rfl, rfl, rfl, rfl, rfl, rfl, rfl, rfl, rfl, rfl, rfl⟩

/-- **C10** (confirmed).  When the per-step driver of `Mcu::step`
dispatches a pending interrupt (interrupt-disable clear, not already
interrupted, a shadow request pending) under pure machine reads, it
changes only PC, SP (down by three with byte wraparound), the three
pushed stack bytes in low RAM, the interrupted latch, and the shadow
request bit of the dispatched source: A, X, Y, every flag (including the
interrupt-disable flag I, which is *not* set), the cycle counter, the
visible IREQ and IENA registers, and all other peripherals are
untouched, so re-entry is prevented solely by the interrupted latch. -/
theorem C10_dispatch_frame {σ} (ops : AddrOps σ) (core : Core σ) (irq : Interrupt)
    (hpure : ∀ s a, (ops.read s a).snd = s)
    (hI : core.flags.interruptDisable = false)
    (hInt : core.addressSpace.interrupt.interrupted = false)
    (hp : core.addressSpace.interrupt.highestPriorityInterrupt = some irq)
    (hsp : core.registers.sp < 256) :
    (dispatchPendingInterrupt ops core).registers.a = core.registers.a ∧
    (dispatchPendingInterrupt ops core).registers.x = core.registers.x ∧
    (dispatchPendingInterrupt ops core).registers.y = core.registers.y ∧
    (dispatchPendingInterrupt ops core).flags = core.flags ∧
    (dispatchPendingInterrupt ops core).cycles = core.cycles ∧
    (dispatchPendingInterrupt ops core).addressSpace.interrupt.ireq =
      core.addressSpace.interrupt.ireq ∧
    (dispatchPendingInterrupt ops core).addressSpace.interrupt.iena =
      core.addressSpace.interrupt.iena ∧
    (dispatchPendingInterrupt ops core).addressSpace.interrupt.interrupted = true ∧
    (dispatchPendingInterrupt ops core).addressSpace.interrupt.shadowIreq =
      (core.addressSpace.interrupt.clearInterruptRequest irq).shadowIreq ∧
    (dispatchPendingInterrupt ops core).addressSpace.banks = core.addressSpace.banks ∧
    (dispatchPendingInterrupt ops core).addressSpace.dma = core.addressSpace.dma ∧
    (dispatchPendingInterrupt ops core).addressSpace.gpio = core.addressSpace.gpio ∧
    (dispatchPendingInterrupt ops core).addressSpace.baseTimer =
      core.addressSpace.baseTimer ∧
    (dispatchPendingInterrupt ops core).addressSpace.timer = core.addressSpace.timer ∧
    (dispatchPendingInterrupt ops core).addressSpace.machineAddrSpace =
      core.addressSpace.machineAddrSpace ∧
    (dispatchPendingInterrupt ops core).registers.sp =
      (core.registers.sp + 765) % 256 ∧
    (∀ addr, addr ≠ 0x100 + core.registers.sp →
       addr ≠ 0x100 + (core.registers.sp + 255) % 256 →
       addr ≠ 0x100 + (core.registers.sp + 510) % 256 →
       (dispatchPendingInterrupt ops core).addressSpace.ram addr =
         core.addressSpace.ram addr) := by
  simp only [dispatchPendingInterrupt, hI, hInt, hp, Bool.not_false, Bool.and_self,
    if_true]
  obtain ⟨e1, e2, e3, e4, e5, e6, e7, e8, e9, e10, e11, e12, e13, e14⟩ :=
    interruptEnter_char ops hpure
      { core with addressSpace :=
          (St2205u.setInterrupted
            { core.addressSpace with
              interrupt := core.addressSpace.interrupt.clearInterruptRequest irq }
            true) }
      irq.vectorAddr hsp
  have h6a := congrArg InterruptState.ireq e6
  have h6b := congrArg InterruptState.iena e6
  have h6c := congrArg InterruptState.interrupted e6
  have h6d := congrArg InterruptState.shadowIreq e6
  refine ⟨e1, e2, e3, e4, e5, h6a, h6b, h6c, h6d, e7, e8, e9, e10, e11, e12, ?_, ?_⟩
  · refine e13.trans ?_
    show (((core.registers.sp + 255) % 256 + 255) % 256 + 255) % 256
        = (core.registers.sp + 765) % 256
    omega
  · intro addr hne1 hne2 hne3
    refine (congrFun e14 addr).trans ?_
    show (if addr = 0x100 + ((core.registers.sp + 255) % 256 + 255) % 256
        then core.flags.toU8
        else if addr = 0x100 + (core.registers.sp + 255) % 256
        then core.registers.pc &&& 0xFF
        else if addr = 0x100 + core.registers.sp
        then (core.registers.pc &&& 0xFF00) >>> 8
        else core.addressSpace.ram addr) = core.addressSpace.ram addr
    rw [if_neg (by omega), if_neg hne2, if_neg hne1]

/-- **C10, witness.**  Dispatching the pending base-timer request on
`irqDemoCore` keeps A and the flags, sets the interrupted latch, and
moves `sp` from `0xFF` to `0xFC`. -/
theorem C10_dispatch_frame_witness :
    (dispatchPendingInterrupt trivOps irqDemoCore).registers.a = 1 ∧
    (dispatchPendingInterrupt trivOps irqDemoCore).flags = irqDemoCore.flags ∧
    (dispatchPendingInterrupt trivOps irqDemoCore).addressSpace.interrupt.interrupted
      = true ∧
    (dispatchPendingInterrupt trivOps irqDemoCore).registers.sp = 0xFC := by
  obtain ⟨w1, -, -, w4, -, -, -, w8, -, -, -, -, -, -, -, w16, -⟩ :=
    C10_dispatch_frame trivOps irqDemoCore Interrupt.baseTimer
      (fun s a => rfl) rfl rfl rfl (by decide)
  exact ⟨w1, w4, w8, w16⟩

end Emiu2
